import Mathlib

/-!
Verification development for the kitchen-preview repository.

The definitions in this file are a shallow embedding, translated from the
TypeScript sources (`src/components/kitchen-preview-canvas.tsx`, second
revision, and `src/lib/content.ts`).  DOM state is made explicit: an SVG
element is a record of its fill attribute, its inline style fill, and an
oracle for the browser computed style; the document is a list of such
elements together with a shared definitions section holding pattern
resources.  Asynchronous image loading is modelled by an explicit loader
oracle `String → Option Image`; the local try/catch around texture loading
becomes the `Option` case split.  JavaScript floating-point arithmetic is
embedded by exact rational/natural arithmetic together with tabulated
corrections at the finitely many inputs where IEEE-754 doubles differ from
the exact values (each such correction is noted where it occurs).
-/

namespace KitchenPreview

/-! ## Character and string helpers (JS primitives) -/

/-- Numeric value of a hexadecimal digit, as accepted by `parseInt(·, 16)`. -/
def hexDigitVal (c : Char) : Option Nat :=
  if '0' ≤ c ∧ c ≤ '9' then some (c.toNat - '0'.toNat)
  else if 'a' ≤ c ∧ c ≤ 'f' then some (c.toNat - 'a'.toNat + 10)
  else if 'A' ≤ c ∧ c ≤ 'F' then some (c.toNat - 'A'.toNat + 10)
  else none

/-- Is this character a decimal digit (regex `\d`)? -/
def isDigitChar (c : Char) : Bool := '0' ≤ c ∧ c ≤ '9'

/-- Is this character a decimal digit or a dot (regex `[\d.]`)? -/
def isDigitDotChar (c : Char) : Bool := isDigitChar c ∨ c = '.'

/-- Is this character regex whitespace (`\s`)?  The document strings we model
use only the four common whitespace characters. -/
def isSpaceChar (c : Char) : Bool := c = ' ' ∨ c = '\t' ∨ c = '\n' ∨ c = '\r'

/-- `parseInt(s, 16)`: parse the longest hexadecimal-digit prefix of `s`;
`none` models the `NaN` result when no digit is present.  (The `0x`-prefix
acceptance of `parseInt` never fires on the two-character substrings the
source passes in.) -/
def jsParseIntHex (s : String) : Option Nat :=
  let ds := (s.data.takeWhile (fun c => (hexDigitVal c).isSome)).filterMap hexDigitVal
  if ds.isEmpty then none else some (ds.foldl (fun acc d => 16 * acc + d) 0)

/-- `parseInt(s, 10)` on a string of decimal digits (the regex groups that feed
it match `\d+`, so the whole string is digits). -/
def jsParseIntDec (s : String) : Option Nat :=
  let ds := (s.data.takeWhile isDigitChar).filterMap
    (fun c => if isDigitChar c then some (c.toNat - '0'.toNat) else none)
  if ds.isEmpty then none else some (ds.foldl (fun acc d => 10 * acc + d) 0)

/-- `s.substring(i, j)` (JavaScript clamps out-of-range indices). -/
def jsSubstring (s : String) (i j : Nat) : String :=
  ⟨(s.data.drop i).take (j - i)⟩

/-- `s.startsWith(pre)`. -/
def jsStartsWith (s pre : String) : Bool :=
  pre.data.isPrefixOf s.data

/-- `s.toLowerCase()` (the strings this system handles are ASCII). -/
def jsToLower (s : String) : String :=
  ⟨s.data.map Char.toLower⟩

/-- `s.trim()`: strip whitespace from both ends. -/
def jsTrim (s : String) : String :=
  ⟨((s.data.dropWhile isSpaceChar).reverse.dropWhile isSpaceChar).reverse⟩

/-- One lowercase hexadecimal digit, as produced by `Number.toString(16)`. -/
def hexDigitChar (n : Nat) : Char :=
  if n < 10 then Char.ofNat ('0'.toNat + n) else Char.ofNat ('a'.toNat + (n - 10))

/-- `n.toString(16).padStart(2, '0')` for a natural number. -/
def toHex2 (n : Nat) : String :=
  if n < 16 then ⟨['0', hexDigitChar n]⟩
  else if n < 256 then ⟨[hexDigitChar (n / 16), hexDigitChar (n % 16)]⟩
  else ⟨[hexDigitChar (n / 256), hexDigitChar (n / 16 % 16), hexDigitChar (n % 16)]⟩

/-! ## `adjustColorBrightness` (kitchen-preview-canvas.tsx, lines 387-418)

The source parses the three channels with `parseInt(hex.substring(2k, 2k+2), 16)`,
computes the perceptual luminance `(0.299 r + 0.587 g + 0.114 b) / 255`, and
then multiplies every channel by `0.7` (luminance above `0.5`) or `0.85`
(otherwise), rounding with `Math.round` and clamping into `[0, 255]`.  The
first per-channel computation from `percent` (lines 398-401) is dead code:
both branches of the following `if` overwrite `newR`, `newG`, `newB`
unconditionally, so the embedding goes straight to the branch result. -/

/-- `Math.max(0, Math.min(255, Math.round(c * 0.7)))` under IEEE-754 double
semantics.  For `c ≤ 255` this equals the exact half-up rounding
`⌊(7c+5)/10⌋` except at `c ∈ {45, 85, 165, 175}`, where the double product
`c * 0.7` falls just below the halfway point (e.g. `45 * 0.7 =
31.499999999999996`), so `Math.round` rounds down. -/
def roundMul07 (c : Nat) : Nat :=
  max 0 (min 255 (if c = 45 ∨ c = 85 ∨ c = 165 ∨ c = 175
    then (7 * c + 5) / 10 - 1 else (7 * c + 5) / 10))

/-- `Math.max(0, Math.min(255, Math.round(c * 0.85)))` under IEEE-754 double
semantics; for every `c ≤ 255` the double computation agrees with the exact
half-up rounding `⌊(17c+10)/20⌋`. -/
def roundMul085 (c : Nat) : Nat :=
  max 0 (min 255 ((17 * c + 10) / 20))

/-- The comparison `(0.299*r + 0.587*g + 0.114*b) / 255 > 0.5` as evaluated
by the source in IEEE-754 doubles.  Over all `r, g, b ≤ 255` it coincides
with the exact comparison `299r + 587g + 114b > 127500` except at the single
triple `(218, 58, 248)`, whose exact luminance is `0.5` but whose double
evaluation is `0.5000000000000001`. -/
def luminanceGtHalf (r g b : Nat) : Bool :=
  299 * r + 587 * g + 114 * b > 127500 ∨ (r = 218 ∧ g = 58 ∧ b = 248)

/-- Exact perceptual luminance `(0.299·R + 0.587·G + 0.114·B)/255` of an RGB
triple, as a rational number. -/
def lumQ (r g b : Nat) : ℚ :=
  (0.299 * r + 0.587 * g + 0.114 * b) / 255

/-- `color.replace('#', '')`: with a string pattern, JavaScript `replace`
removes only the first occurrence. -/
def removeFirstHash : List Char → List Char
  | [] => []
  | c :: cs => if c = '#' then cs else c :: removeFirstHash cs

/-- `adjustColorBrightness(color, percent)`.  A channel whose two-character
substring holds no hexadecimal digit parses to `NaN`; the luminance
comparison with `NaN` is false (dark branch) and the channel renders as the
string `"NaN"`, exactly as in JavaScript.  The `percent` argument only feeds
the dead pre-branch computation and does not influence the result. -/
def adjustColorBrightness (color : String) (_percent : Int) : String :=
  let hex : String := ⟨removeFirstHash color.data⟩
  let rOpt := jsParseIntHex (jsSubstring hex 0 2)
  let gOpt := jsParseIntHex (jsSubstring hex 2 4)
  let bOpt := jsParseIntHex (jsSubstring hex 4 6)
  let isLight : Bool := match rOpt, gOpt, bOpt with
    | some r, some g, some b => luminanceGtHalf r g b
    | _, _, _ => false
  let chan (c : Option Nat) : String := match c with
    | some c => toHex2 (if isLight then roundMul07 c else roundMul085 c)
    | none => "NaN"
  "#" ++ chan rOpt ++ chan gOpt ++ chan bOpt

/-- The hex rendering `"#" ++ toHex2 r ++ toHex2 g ++ toHex2 b` of a channel
triple, matching the template-string output of the source. -/
def toHexColor (r g b : Nat) : String :=
  "#" ++ toHex2 r ++ toHex2 g ++ toHex2 b

/-- The grout channel value the source computes for input channel `c`:
the light branch multiplies by `0.7`, the dark branch by `0.85`. -/
def groutChan (light : Bool) (c : Nat) : Nat :=
  if light then roundMul07 c else roundMul085 c

/-! ## `rgbToHex` (kitchen-preview-canvas.tsx, lines 421-430)

The source matches `rgba?\((\d+),\s*(\d+),\s*(\d+)(?:,\s*[\d.]+)?\)` with the
case-insensitive flag against the input (an unanchored search) and, on a
match, converts the three captured decimal groups with
`parseInt(·).toString(16).padStart(2, '0')`; otherwise it returns the empty
string. -/

/-- Case-insensitive character comparison, for the regex `/i` flag. -/
def charCI (a b : Char) : Bool := a.toLower = b.toLower

/-- Try to match the rgb/rgba pattern at the very start of `cs`, returning the
three captured digit groups.  The pattern pieces appear in source order:
`rgb`, optional `a`, `(`, `\d+`, `,`, `\s*`, `\d+`, `,`, `\s*`, `\d+`,
optionally `,\s*[\d.]+`, then `)`.  Note there is no whitespace allowance
between `(` and the first digit, nor between a digit group and its comma,
exactly as in the source pattern. -/
def rgbMatchHere (cs : List Char) : Option (Nat × Nat × Nat) := do
  let cs ← match cs with
    | r :: g :: b :: rest =>
      if charCI r 'r' ∧ charCI g 'g' ∧ charCI b 'b' then
        match rest with
        | a :: rest2 => if charCI a 'a' then some rest2 else some rest
        | [] => some rest
      else none
    | _ => none
  let cs ← match cs with
    | '(' :: rest => some rest
    | _ => none
  let d1 := cs.takeWhile isDigitChar
  let cs := cs.dropWhile isDigitChar
  if d1.isEmpty then none else do
  let cs ← match cs with
    | ',' :: rest => some (rest.dropWhile isSpaceChar)
    | _ => none
  let d2 := cs.takeWhile isDigitChar
  let cs := cs.dropWhile isDigitChar
  if d2.isEmpty then none else do
  let cs ← match cs with
    | ',' :: rest => some (rest.dropWhile isSpaceChar)
    | _ => none
  let d3 := cs.takeWhile isDigitChar
  let cs := cs.dropWhile isDigitChar
  if d3.isEmpty then none else do
  -- optional alpha group `,\s*[\d.]+`, then the closing parenthesis
  let close : List Char → Bool := fun l => l.headD ' ' = ')'
  let cs ←
    match cs with
    | ',' :: rest =>
      let rest := rest.dropWhile isSpaceChar
      let a := rest.takeWhile isDigitDotChar
      let rest2 := rest.dropWhile isDigitDotChar
      if a.isEmpty then none else if close rest2 then some rest2 else none
    | l => if close l then some l else none
  let _ := cs
  let v := fun (ds : List Char) => ds.foldl (fun acc c => 10 * acc + (c.toNat - '0'.toNat)) 0
  some (v d1, v d2, v d3)

/-- Unanchored leftmost search of the rgb/rgba pattern (JS `String.match`). -/
def rgbSearch : List Char → Option (Nat × Nat × Nat)
  | [] => none
  | c :: cs =>
    match rgbMatchHere (c :: cs) with
    | some r => some r
    | none => rgbSearch cs

/-- `rgbToHex(rgb)`: the captured groups converted to hexadecimal, or the
empty string when the pattern does not occur. -/
def rgbToHex (rgb : String) : String :=
  match rgbSearch rgb.data with
  | some (r, g, b) => "#" ++ toHex2 r ++ toHex2 g ++ toHex2 b
  | none => ""

/-! ## Element model and `getElementFillColor` (lines 433-480)

An element carries its fill attribute, its inline style, and an oracle for
`window.getComputedStyle(·).fill`.  The inline style is modelled by the fill
declaration value (`styleFill`, the CSSOM property and the attribute text
agree) plus the remaining declarations, kept opaque (`styleRest`); the
documents this development works with never hide a `fill:` declaration
inside `styleRest`, so the fill-targeting regexes of the source see exactly
`styleFill`.  The computed-style oracle stands for the value the browser
reports for styling that this system did not itself write (stylesheet or
inheritance); for elements painted by `updateSurface` the fill attribute is
always set as well and is consulted first. -/

structure ElemCore where
  /-- The `fill` attribute; `none` models an absent attribute. -/
  fillAttr : Option String := none
  /-- Value of the inline style `fill` declaration, when present. -/
  styleFill : Option String := none
  /-- Other inline style declarations (opaque, contain no `fill:`). -/
  styleRest : List String := []
  /-- Value of the inline style `stroke` declaration, when present. -/
  styleStroke : Option String := none
  /-- Oracle for `window.getComputedStyle(el).fill`; the empty string models
  an unavailable computed style. -/
  computedFill : String := ""
  deriving Repr, DecidableEq

/-- The regex capture `fill:\s*(#[0-9A-Fa-f]{6}|#[0-9A-Fa-f]{3}|rgb\([^)]+\)|rgba\([^)]+\))`
applied to the inline style, acting on the fill declaration value: the first
alternative takes six hexadecimal digits after `#`, the second three, and
the last two take an `rgb(`/`rgba(` prefix through the first closing
parenthesis.  Alternatives are tried in source order. -/
def styleFillCapture (v : String) : Option String :=
  match v.data with
  | '#' :: rest =>
    if (rest.take 6).length = 6 ∧ (rest.take 6).all (fun c => (hexDigitVal c).isSome) then
      some ⟨'#' :: rest.take 6⟩
    else if (rest.take 3).length = 3 ∧ (rest.take 3).all (fun c => (hexDigitVal c).isSome) then
      some ⟨'#' :: rest.take 3⟩
    else none
  | r :: g :: b :: rest =>
    if charCI r 'r' ∧ charCI g 'g' ∧ charCI b 'b' then
      match rest with
      | '(' :: body =>
        let inner := body.takeWhile (· ≠ ')')
        if inner.isEmpty then none
        else if (body.dropWhile (· ≠ ')')).headD ' ' = ')' then
          some ⟨r :: g :: b :: '(' :: (inner ++ [')'])⟩
        else none
      | a :: '(' :: body =>
        if charCI a 'a' then
          let inner := body.takeWhile (· ≠ ')')
          if inner.isEmpty then none
          else if (body.dropWhile (· ≠ ')')).headD ' ' = ')' then
            some ⟨r :: g :: b :: a :: '(' :: (inner ++ [')'])⟩
          else none
        else none
      | _ => none
    else none
  | _ => none

/-- Step 1 of `getElementFillColor` fires when the fill attribute is present,
non-empty and starts with `#`. -/
def fillAttrResolvable (e : ElemCore) : Bool :=
  let fillAttr := e.fillAttr.getD ""
  fillAttr ≠ "" ∧ jsStartsWith fillAttr "#"

/-- Step 2 of `getElementFillColor`: run the fill-declaration regex over the
style attribute; on a hex capture return it lowercased, on an rgb capture
return its `rgbToHex` conversion, otherwise fall through (`none`). -/
def styleStepRes (e : ElemCore) : Option String :=
  match e.styleFill with
  | some v =>
    match styleFillCapture v with
    | some cap =>
      let fillValue := jsToLower (jsTrim cap)
      if jsStartsWith fillValue "#" then some fillValue
      else if jsStartsWith fillValue "rgb" then some (rgbToHex fillValue)
      else none
    | none => none
  | none => none

/-- Step 3 of `getElementFillColor`: the trimmed computed fill, unless it is
empty, `none`, or pure black (`rgb(0, 0, 0)`); a `#` value is lowercased, an
`rgb` value converted, anything else falls through. -/
def computedStepRes (e : ElemCore) : Option String :=
  let computedFill := jsTrim e.computedFill
  if computedFill ≠ "" ∧ computedFill ≠ "none" ∧ computedFill ≠ "rgb(0, 0, 0)" then
    if jsStartsWith computedFill "#" then some (jsToLower computedFill)
    else if jsStartsWith computedFill "rgb" then some (rgbToHex computedFill)
    else none
  else none

/-- Steps 1-3 of `getElementFillColor` on the element itself: the fill
attribute when resolvable (lowercased and trimmed), else the inline style
step, else the computed-style step. -/
def resolveOwn (e : ElemCore) : Option String :=
  if fillAttrResolvable e then some (jsTrim (jsToLower (e.fillAttr.getD "")))
  else
    match styleStepRes e with
    | some res => some res
    | none => computedStepRes e

/-- `getElementFillColor(element)`: consult, in order, the fill attribute,
the inline style, the computed style, and then the parent chain (`anc` lists
the SVG ancestors, nearest first; the chain stops where the source leaves
`SVGElement` territory).  Returns the empty string when nothing resolves. -/
def getElementFillColor : ElemCore → List ElemCore → String
  | e, anc =>
    match resolveOwn e, anc with
    | some res, _ => res
    | none, [] => ""
    | none, parent :: rest => getElementFillColor parent rest

/-- The normal form the spec asserts for effective fill colors: a `#`
followed by exactly six lowercase hexadecimal digits. -/
def isSixHexLower (s : String) : Bool :=
  match s.data with
  | '#' :: rest =>
    rest.length = 6 ∧ rest.all (fun c => isDigitChar c ∨ ('a' ≤ c ∧ c ≤ 'f'))
  | _ => false

/-! ## SVG document model

A document is the list of its drawable elements (in document order) plus the
shared `defs` section holding pattern resources (`none` when the artwork has
no `defs` element).  Elements are mutated in place by the source, so the
embedding tracks them positionally; pattern lookups (`svg.querySelector`
with a pattern id) are resolved against `defs` — in the documents this
development works with no drawable element carries a pattern id.  The
static `ancestors` chain of an element is sound because only leaf drawables
are ever painted and a leaf is never an ancestor of another. -/

structure Elem where
  core : ElemCore := {}
  /-- The `id` attribute. -/
  idAttr : Option String := none
  /-- Whether `querySelectorAll('path')` returns this element. -/
  isPath : Bool := true
  /-- The SVG ancestor chain, nearest first (never mutated). -/
  ancestors : List ElemCore := []
  deriving Repr, DecidableEq

instance : Inhabited Elem := ⟨{}⟩

/-- Content of a pattern resource in `defs`: either the 100%-sized tiled
texture image (href and the repeat-cell pixel dimensions), or the synthetic
40×40 floor tile (face color plus the two 1px grout lines). -/
inductive PatternContent where
  | textureImage (href : String) (cellWidth cellHeight : Nat)
  | floorTile (base : String) (grout : String)
  deriving Repr, DecidableEq

structure PatternDef where
  pid : String
  content : PatternContent
  deriving Repr, DecidableEq

structure SvgDoc where
  elems : List Elem
  defs : Option (List PatternDef) := none
  deriving Repr, DecidableEq

/-- Index of the first list entry satisfying `p`, counting from `n`. -/
def findIdxFrom (p : Elem → Bool) : List Elem → Nat → Option Nat
  | [], _ => none
  | e :: rest, n => if p e then some n else findIdxFrom p rest (n + 1)

/-- `svg.querySelector('#id')` over drawable elements: index of the first
element with the given id. -/
def querySelectorIdx (svg : SvgDoc) (id : String) : Option Nat :=
  findIdxFrom (fun e => e.idAttr = some id) svg.elems 0

/-- Effective fill color of the element at index `i`
(`getElementFillColor` applied to it and its ancestor chain). -/
def elemColorAt (svg : SvgDoc) (i : Nat) : String :=
  match svg.elems.get? i with
  | some e => getElementFillColor e.core e.ancestors
  | none => ""

/-- The selector argument of `updateSurface`: a single id, a list of ids, or
a scene-aware selector function producing element indices. -/
inductive SelectorArg where
  | one (id : String)
  | many (ids : List String)
  | fn (f : SvgDoc → List Nat)

/-- Resolve a selector argument to element indices
(`ids.map(id => svg.querySelector('#' + id)).filter(Boolean)`). -/
def resolveSelector (svg : SvgDoc) : SelectorArg → List Nat
  | .one id => (querySelectorIdx svg id).toList
  | .many ids => ids.filterMap (querySelectorIdx svg)
  | .fn f => f svg

/-- Apply `f` to the elements at the given indices, left to right
(`elements.forEach`). -/
def updateElems (idxs : List Nat) (f : Elem → Elem) (svg : SvgDoc) : SvgDoc :=
  idxs.foldl
    (fun d i =>
      match d.elems.get? i with
      | some e => { d with elems := d.elems.set i (f e) }
      | none => d)
    svg

/-- The per-element mutation sequence of the flat-color and texture
branches: `removeAttribute('fill')`, `style.fill = ''`, `style.stroke = ''`,
strip `fill:` from the style attribute text (a no-op on the state, because
`style.fill` was just cleared and `styleRest` holds no fill declaration;
when nothing remains the attribute is removed, which is again the same
state), then `setAttribute('fill', v)` and `style.fill = v`. -/
def clearAndSetFill (v : String) (e : Elem) : Elem :=
  { e with core := { e.core with
      fillAttr := some v, styleFill := some v, styleStroke := none } }

/-- The catch-branch fallback: `setAttribute('fill', '#ccc')` and
`style.fill = '#ccc'`, with no clearing of the stroke or style text. -/
def fallbackGray (e : Elem) : Elem :=
  { e with core := { e.core with
      fillAttr := some "#ccc", styleFill := some "#ccc" } }

/-- `defs` creation on demand (`document.createElementNS` + `insertBefore`). -/
def ensureDefs (svg : SvgDoc) : SvgDoc :=
  match svg.defs with
  | some _ => svg
  | none => { svg with defs := some [] }

/-- Remove the first pattern with the given id from `defs`
(`svg.querySelector('#' + patternId)` followed by `.remove()`). -/
def removePattern (pid : String) (svg : SvgDoc) : SvgDoc :=
  { svg with defs := svg.defs.map (fun ps => ps.eraseP (fun p => p.pid = pid)) }

/-- Append a pattern to `defs` (`defs.appendChild(pattern)`). -/
def appendPattern (p : PatternDef) (svg : SvgDoc) : SvgDoc :=
  { svg with defs := svg.defs.map (fun ps => ps ++ [p]) }

/-- Number of pattern resources in `defs` carrying the given id. -/
def patternCount (svg : SvgDoc) (pid : String) : Nat :=
  ((svg.defs.getD []).filter (fun p => p.pid = pid)).length

/-- `createTilePattern(svg, baseColor)` (lines 329-385): ensure `defs`,
remove any existing `floor-tile-pattern`, and append a fresh 40×40 tile
pattern whose face rect is `baseColor` and whose two grout lines are
`adjustColorBrightness(baseColor, -15)`.  Returns the mutated document; the
returned pattern id is the constant `floor-tile-pattern`. -/
def createTilePattern (svg : SvgDoc) (baseColor : String) : SvgDoc :=
  let svg := ensureDefs svg
  let svg := removePattern "floor-tile-pattern" svg
  appendPattern
    { pid := "floor-tile-pattern"
      content := .floorTile baseColor (adjustColorBrightness baseColor (-15)) } svg

/-! ## Materials, images and `getAssetUrl` -/

/-- `TextureOption` from `src/types.ts`.  The `category` and `ttype` fields
are the TS string unions (`ttype` stands for the source field `type`,
`color` or `texture`). -/
structure TextureOption where
  id : String
  label : String := ""
  category : String := ""
  ttype : String
  value : String
  order : Int := 0
  deriving Repr, DecidableEq

/-- A successfully decoded `HTMLImageElement`: the URL the browser reports
in `img.src` and the four size properties read by the source (a zero size
is falsy in JS and triggers the fallback chain). -/
structure Image where
  src : String
  naturalWidth : Nat := 0
  naturalHeight : Nat := 0
  width : Nat := 0
  height : Nat := 0
  deriving Repr, DecidableEq

/-- `getAssetUrl(path)` from `src/lib/content.ts`: absolute `http` URLs pass
through; other paths are resolved against the configured base URL. -/
def getAssetUrl (baseUrl path : String) : String :=
  if jsStartsWith path "http" then path
  else if jsStartsWith path "/" then baseUrl ++ (⟨path.data.drop 1⟩ : String)
  else baseUrl ++ path

/-- The repeat-cell size of a texture pattern:
`img.naturalWidth || img.width || 200`. -/
def patternCellW (img : Image) : Nat :=
  if img.naturalWidth ≠ 0 then img.naturalWidth
  else if img.width ≠ 0 then img.width else 200

/-- `img.naturalHeight || img.height || 200`. -/
def patternCellH (img : Image) : Nat :=
  if img.naturalHeight ≠ 0 then img.naturalHeight
  else if img.height ≠ 0 then img.height else 200

/-! ## `updateSurface` (lines 679-904)

The loader oracle `loader : String → Option Image` stands for
`loadImage(url)`: `some` is a resolved image, `none` a rejected promise, and
the `try`/`catch` around the texture branch becomes the case split — a
failure paints the gray fallback and the function still returns normally. -/

def updateSurface (loader : String → Option Image) (baseUrl : String)
    (svg : SvgDoc) (elementId : SelectorArg) (opt : Option TextureOption)
    (isFloor : Bool := false) : SvgDoc :=
  let elements := resolveSelector svg elementId
  match opt with
  | none => svg
  | some opt =>
    if elements.isEmpty then svg
    else if opt.ttype = "" then svg
    else if opt.ttype = "color" then
      -- flat color; floors additionally install the synthetic tile pattern
      let svg2 := if isFloor then createTilePattern svg opt.value else svg
      let fillValue := if isFloor then "url(#floor-tile-pattern)" else opt.value
      updateElems elements (clearAndSetFill fillValue) svg2
    else if opt.ttype = "texture" then
      match loader (getAssetUrl baseUrl opt.value) with
      | some texImg =>
        let patternId := "texture-" ++ opt.id
        let svg2 := ensureDefs svg
        let svg2 := removePattern patternId svg2
        let svg2 := appendPattern
          { pid := patternId
            content := .textureImage texImg.src (patternCellW texImg) (patternCellH texImg) }
          svg2
        updateElems elements (clearAndSetFill ("url(#" ++ patternId ++ ")")) svg2
      | none => updateElems elements fallbackGray svg
    else svg

/-! ## Region resolution (`findElementsByColor`, `getSceneSelectors`,
lines 483-677) -/

/-- Indices of the `path` elements, with their document positions. -/
def allPathIdx (svg : SvgDoc) : List (Nat × Elem) :=
  svg.elems.enum.filter (fun p => p.2.isPath)

/-- `findElementsByColor(svg, colors)`: normalize the target colors
(lowercase, trim, ensure a leading `#`), then keep every `path` whose
effective fill color is non-empty and equal to one of them, in document
order. -/
def findElementsByColor (svg : SvgDoc) (colors : List String) : List Nat :=
  let normalizedColors := colors.map (fun c =>
    let color := jsTrim (jsToLower c)
    if jsStartsWith color "#" then color else "#" ++ color)
  (allPathIdx svg).filterMap (fun p =>
    let actualColor := getElementFillColor p.2.core p.2.ancestors
    if actualColor ≠ "" ∧ normalizedColors.contains actualColor then some p.1 else none)

/-- The `kitchen-preview-2` backsplash heuristic: a `path` whose effective
color is light (starts with `#f`, `#e` or `#d`) and is neither a cabinet
reference color nor a background reference color. -/
def backsplashByColor (svg : SvgDoc) : List Nat :=
  let cabinetColors := ["#fff9d3", "#c9c5a7", "#fffad3", "#fff8d3", "#c9c6a7",
    "#c8c5a7", "#d9d5b7", "#e9e5c7"]
  let backgroundColors := ["#bdbcc0", "#bdbc0"]
  (allPathIdx svg).filterMap (fun p =>
    let actualColor := getElementFillColor p.2.core p.2.ancestors
    if actualColor ≠ "" then
      let isLightColor := jsStartsWith actualColor "#f" ∨ jsStartsWith actualColor "#e" ∨
        jsStartsWith actualColor "#d"
      let isNotCabinet := ¬ cabinetColors.any (fun c => actualColor = jsToLower c)
      let isNotBackground := ¬ backgroundColors.any (fun c => actualColor = jsToLower c)
      if isLightColor ∧ isNotCabinet ∧ isNotBackground then some p.1 else none
    else none)

/-- The per-category selector functions returned by `getSceneSelectors`. -/
structure SceneSelectors where
  background : SvgDoc → List Nat
  floor : SvgDoc → List Nat
  countertop : SvgDoc → List Nat
  backsplash : SvgDoc → List Nat
  cabinet : SvgDoc → List Nat

/-- Resolve a list of ids (`ids.map(querySelector).filter(Boolean)`),
the shape shared by all id-based selector closures. -/
def selectByIds (ids : List String) (svg : SvgDoc) : List Nat :=
  ids.filterMap (querySelectorIdx svg)

/-- The explicit id lists of the default (`kitchen-preview`) scene. -/
def defaultCountertopIds : List String :=
  ["countertop-surface-4", "countertop-surface-5", "countertop-surface-6",
   "countertop-surface-7", "countertop-surface-8", "countertop-surface-9",
   "countertop-surface-10", "countertop-surface-11", "countertop-surface-12",
   "countertop-surface-13", "countertop-surface-14", "countertop-surface-15",
   "countertop-surface-16", "countertop-surface-17", "countertop-surface-18",
   "countertop-surface-19", "countertop-surface-20", "countertop-surface-21"]

def defaultBacksplashIds : List String :=
  ["backsplash-surface-wall-1", "backsplash-surface-wall-2", "backsplash-surface-wall-3"]

def defaultCabinetIds : List String :=
  ["cabinet-surface-upper-1", "cabinet-surface-upper-2", "cabinet-surface-upper-3",
   "cabinet-surface-upper-4", "cabinet-surface-upper-5", "cabinet-surface-upper-6",
   "cabinet-surface-upper-7", "cabinet-surface-upper-8", "cabinet-surface-upper-9",
   "cabinet-surface-upper-10", "cabinet-surface-upper-11", "cabinet-surface-upper-12",
   "cabinet-surface-1", "cabinet-surface-2", "cabinet-surface-3",
   "cabinet-surface-4", "cabinet-surface-5", "cabinet-surface-6",
   "cabinet-surface-7", "cabinet-surface-8", "cabinet-surface-9",
   "cabinet-surface-10", "cabinet-surface-11", "cabinet-surface-12",
   "cabinet-surface-13", "cabinet-surface-14", "cabinet-surface-15",
   "cabinet-surface-16", "cabinet-surface-17", "cabinet-surface-18",
   "cabinet-surface-19", "cabinet-surface-20", "cabinet-surface-21",
   "cabinet-surface-22", "cabinet-surface-23", "cabinet-surface-24",
   "cabinet-surface-25", "cabinet-surface-26", "cabinet-surface-27",
   "cabinet-surface-28"]

/-- `getSceneSelectors(sceneId, svg)` (lines 541-677): color-classification
selectors for `kitchen-preview-2`, id lookups for every other scene.  The
color lists are copied verbatim from the source, including case variants
and duplicates (they are normalized inside `findElementsByColor`).  The
debug-only color logging of the source has no effect on the document and is
not modelled. -/
def getSceneSelectors (sceneId : String) : SceneSelectors :=
  if sceneId = "kitchen-preview-2" then
    { background := fun svg =>
        findElementsByColor svg ["#BDBCC0", "#bdbcc0", "#BDBCB0", "#bdbc0"]
      floor := fun svg =>
        findElementsByColor svg ["#737373", "#615739", "#737373", "#615739",
          "#6B6B6B", "#5A5A5A", "#4A4A4A", "#3A3A3A"]
      countertop := fun svg =>
        findElementsByColor svg ["#8d8975", "#8D8975", "#8D8A75", "#8E8975",
          "#9D9975", "#7D7975", "#8C8874", "#8E8A76"]
      backsplash := backsplashByColor
      cabinet := fun svg =>
        findElementsByColor svg ["#fff9d3", "#FFF9D3", "#FFFAD3", "#FFF8D3",
          "#c9c5a7", "#C9C5A7", "#C9C6A7", "#C8C5A7", "#D9D5B7", "#E9E5C7"] }
  else
    { background := selectByIds ["background-surface"]
      floor := selectByIds ["floor-surface", "floor-surface-main"]
      countertop := selectByIds defaultCountertopIds
      backsplash := selectByIds defaultBacksplashIds
      cabinet := selectByIds defaultCabinetIds }

/-- The five current category → material assignments. -/
structure Selections where
  countertop : Option TextureOption := none
  backsplash : Option TextureOption := none
  cabinet : Option TextureOption := none
  floor : Option TextureOption := none
  background : Option TextureOption := none

/-- `applyTextures(svg)` (lines 906-925): the full composite pass — the five
`updateSurface` calls in source order, the floor pass with the tile-pattern
flag set. -/
def applyTextures (loader : String → Option Image) (baseUrl : String)
    (sceneId : String) (sel : Selections) (svg : SvgDoc) : SvgDoc :=
  let selectors := getSceneSelectors sceneId
  let svg := updateSurface loader baseUrl svg (.fn selectors.background) sel.background
  let svg := updateSurface loader baseUrl svg (.fn selectors.floor) sel.floor true
  let svg := updateSurface loader baseUrl svg (.fn selectors.countertop) sel.countertop
  let svg := updateSurface loader baseUrl svg (.fn selectors.backsplash) sel.backsplash
  updateSurface loader baseUrl svg (.fn selectors.cabinet) sel.cabinet

/-! ## Specification-side layering order (for the layering claim)

The spec states the composite pass as one pass per category in the fixed
order background → floor → countertop → backsplash → cabinet; the following
definitions transcribe that wording, to be compared with `applyTextures`. -/

inductive Category where
  | background | floor | countertop | backsplash | cabinet
  deriving Repr, DecidableEq

/-- The layering order as the spec words it. -/
def layerOrder : List Category :=
  [.background, .floor, .countertop, .backsplash, .cabinet]

def SceneSelectors.forCategory (s : SceneSelectors) : Category → (SvgDoc → List Nat)
  | .background => s.background
  | .floor => s.floor
  | .countertop => s.countertop
  | .backsplash => s.backsplash
  | .cabinet => s.cabinet

def Selections.forCategory (sel : Selections) : Category → Option TextureOption
  | .background => sel.background
  | .floor => sel.floor
  | .countertop => sel.countertop
  | .backsplash => sel.backsplash
  | .cabinet => sel.cabinet

/-- One `applyMaterial` step of the spec: paint one category (the floor
category with the tile-pattern flag). -/
def applyCategory (loader : String → Option Image) (baseUrl sceneId : String)
    (sel : Selections) (svg : SvgDoc) (cat : Category) : SvgDoc :=
  updateSurface loader baseUrl svg (.fn ((getSceneSelectors sceneId).forCategory cat))
    (sel.forCategory cat) (cat = Category.floor)

/-- The spec-side composite pass: fold `applyMaterial` over `layerOrder`. -/
def applyTexturesLayered (loader : String → Option Image) (baseUrl sceneId : String)
    (sel : Selections) (svg : SvgDoc) : SvgDoc :=
  layerOrder.foldl (applyCategory loader baseUrl sceneId sel) svg

/-- The fill value `updateSurface` installs on the target regions of a
material: the color value itself for a flat color (the floor tile-pattern
reference for floors), the texture-pattern reference on a successful image
load, and the gray fallback on a failed one. -/
def surfaceFillValue (loader : String → Option Image) (baseUrl : String)
    (opt : TextureOption) (isFloor : Bool) : String :=
  if opt.ttype = "color" then
    if isFloor then "url(#floor-tile-pattern)" else opt.value
  else if opt.ttype = "texture" then
    match loader (getAssetUrl baseUrl opt.value) with
    | some _ => "url(#" ++ ("texture-" ++ opt.id) ++ ")"
    | none => "#ccc"
  else ""

/-! ## Content loading (`src/lib/content.ts`)

`fetchJson` returns the parsed body on a 2xx response and `null` both on a
non-ok status and on a thrown network/parse error; the loaders fall back to
the bundled dataset when the result is nullish, then sort ascending by the
`order` field.  The JSON shapes the normalizers distinguish are: a bare
array, an object wrapping the array under the dataset name, and anything
else.  `JsonData.nullish` stands for a falsy body (`null`, `0`, `""`,
`false`), which the `data ? … : …` check routes to the bundled fallback. -/

inductive JsonData (α : Type) where
  | arr (items : List α)
  | keyed (items : List α)
  | other
  | nullish

/-- JS truthiness of the fetched body. -/
def JsonData.truthy : JsonData α → Bool
  | .nullish => false
  | _ => true

inductive FetchOutcome (α : Type) where
  | networkError
  | httpNotOk
  | ok (body : JsonData α)

/-- `fetchJson(url)`: `null` on a non-ok status or a thrown error. -/
def fetchJson : FetchOutcome α → Option (JsonData α)
  | .networkError => none
  | .httpNotOk => none
  | .ok body => some body

/-- `Scene` from `src/types.ts`. -/
structure Scene where
  id : String
  name : String := ""
  baseImageUrl : String := ""
  maskCountertopUrl : String := ""
  maskBacksplashUrl : String := ""
  maskCabinetUrl : String := ""
  maskFloorUrl : String := ""
  isDefault : Bool := false
  order : Int := 0
  deriving Repr, DecidableEq

/-- `Theme` from `src/types.ts`. -/
structure Theme where
  id : String
  name : String := ""
  description : Option String := none
  countertop : String := ""
  backsplash : String := ""
  cabinet : String := ""
  floor : String := ""
  background : String := ""
  order : Int := 0
  deriving Repr, DecidableEq

def normalizeTextures : JsonData TextureOption → List TextureOption
  | .arr items => items
  | .keyed items => items
  | _ => []

def normalizeScenes : JsonData Scene → List Scene
  | .arr items => items
  | .keyed items => items
  | _ => []

def normalizeThemes : JsonData Theme → List Theme
  | .arr items => items
  | .keyed items => items
  | _ => []

/-- Stable insertion for the `sort((a, b) => a.order - b.order)` calls: an
element is inserted before the first strictly greater key and after equal
ones, which combined with `foldr` reproduces the stable ascending sort of
`Array.prototype.sort` under this comparator. -/
def insertByOrder (key : α → Int) (x : α) : List α → List α
  | [] => [x]
  | y :: ys => if key x ≤ key y then x :: y :: ys else y :: insertByOrder key x ys

def sortByOrder (key : α → Int) (l : List α) : List α :=
  l.foldr (insertByOrder key) []

/-- `loadTextures()`, with the module-level cache and the fetch outcome made
explicit. -/
def loadTextures (cache : Option (List TextureOption))
    (outcome : FetchOutcome TextureOption) (bundled : JsonData TextureOption) :
    List TextureOption :=
  match cache with
  | some cached => cached
  | none =>
    let data := fetchJson outcome
    let list := match data with
      | some d => if d.truthy then normalizeTextures d else normalizeTextures bundled
      | none => normalizeTextures bundled
    sortByOrder (fun t => t.order) list

/-- `loadScenes()`. -/
def loadScenes (cache : Option (List Scene))
    (outcome : FetchOutcome Scene) (bundled : JsonData Scene) : List Scene :=
  match cache with
  | some cached => cached
  | none =>
    let data := fetchJson outcome
    let list := match data with
      | some d => if d.truthy then normalizeScenes d else normalizeScenes bundled
      | none => normalizeScenes bundled
    sortByOrder (fun s => s.order) list

/-- `loadThemes()`. -/
def loadThemes (cache : Option (List Theme))
    (outcome : FetchOutcome Theme) (bundled : JsonData Theme) : List Theme :=
  match cache with
  | some cached => cached
  | none =>
    let data := fetchJson outcome
    let list := match data with
      | some d => if d.truthy then normalizeThemes d else normalizeThemes bundled
      | none => normalizeThemes bundled
    sortByOrder (fun t => t.order) list

/-! ## Viewport computation on scene load (`loadSvg`, lines 932-961)

The source picks the root `viewBox` attribute, or derives `0 0 w h` from the
`width`/`height` attributes, or falls back to `0 0 1359 877`; it then runs
the regex `([\d.]+)\s+([\d.]+)\s+([\d.]+)\s+([\d.]+)` over that string and,
on a match, widens the box by 15% of its width and height on each side.
The embedding keeps the four resulting numbers as exact rationals (the JS
float formatting of the final attribute string is abstracted away);
`nanBox` abstracts the `NaN`-propagated string produced when a captured
token is not a valid decimal number. -/

/-- Match the four-group pattern at the current position: a maximal
`[\d.]+` run, maximal `\s+` run, and so on (the character classes are
disjoint, so greedy maximal runs are exact and no backtracking arises). -/
def viewBoxMatchHere (cs : List Char) : Option (String × String × String × String) :=
  let t1 := cs.takeWhile isDigitDotChar
  let cs := cs.dropWhile isDigitDotChar
  if t1.isEmpty then none else
  let s1 := cs.takeWhile isSpaceChar
  let cs := cs.dropWhile isSpaceChar
  if s1.isEmpty then none else
  let t2 := cs.takeWhile isDigitDotChar
  let cs := cs.dropWhile isDigitDotChar
  if t2.isEmpty then none else
  let s2 := cs.takeWhile isSpaceChar
  let cs := cs.dropWhile isSpaceChar
  if s2.isEmpty then none else
  let t3 := cs.takeWhile isDigitDotChar
  let cs := cs.dropWhile isDigitDotChar
  if t3.isEmpty then none else
  let s3 := cs.takeWhile isSpaceChar
  let cs := cs.dropWhile isSpaceChar
  if s3.isEmpty then none else
  let t4 := cs.takeWhile isDigitDotChar
  if t4.isEmpty then none else
  some (⟨t1⟩, ⟨t2⟩, ⟨t3⟩, ⟨t4⟩)

/-- Unanchored leftmost search of the four-group pattern (JS `match`). -/
def viewBoxSearch : List Char → Option (String × String × String × String)
  | [] => none
  | c :: cs =>
    match viewBoxMatchHere (c :: cs) with
    | some r => some r
    | none => viewBoxSearch cs

/-- `Number(token)` on a token drawn from `[\d.]+`: an integer, or a single
decimal point with at least one digit somewhere; everything else is `NaN`
(`none`).  Exact rational arithmetic stands in for the double values. -/
def jsNumberDec (s : String) : Option ℚ :=
  let natVal : List Char → ℚ := fun ds =>
    ((ds.foldl (fun acc c => 10 * acc + (c.toNat - '0'.toNat)) 0 : Nat) : ℚ)
  match s.data.splitOn '.' with
  | [ds] => if ds ≠ [] ∧ ds.all isDigitChar then some (natVal ds) else none
  | [as, bs] =>
    if (as ≠ [] ∨ bs ≠ []) ∧ as.all isDigitChar ∧ bs.all isDigitChar then
      some (natVal as + natVal bs / ((10 : ℚ) ^ bs.length))
    else none
  | _ => none

inductive ViewBoxOutcome where
  | expanded (x y w h : ℚ)
  | passthrough (s : String)
  | nanBox
  deriving Repr, DecidableEq

/-- The viewport the source installs on the displayed document:
`originalViewBox` selection by JS truthiness, then the regex match and the
15%-padding expansion. -/
def computeViewBox (viewBoxAttr widthAttr heightAttr : Option String) : ViewBoxOutcome :=
  let truthy : Option String → Bool := fun a => a.getD "" ≠ ""
  let originalViewBox : String :=
    if truthy viewBoxAttr then viewBoxAttr.getD ""
    else if truthy widthAttr ∧ truthy heightAttr then
      "0 0 " ++ widthAttr.getD "" ++ " " ++ heightAttr.getD ""
    else "0 0 1359 877"
  match viewBoxSearch originalViewBox.data with
  | some (t1, t2, t3, t4) =>
    match jsNumberDec t1, jsNumberDec t2, jsNumberDec t3, jsNumberDec t4 with
    | some x, some y, some w, some h =>
      let paddingX := w * 0.15
      let paddingY := h * 0.15
      .expanded (x - paddingX) (y - paddingY) (w + paddingX * 2) (h + paddingY * 2)
    | _, _, _, _ => .nanBox
  | none => .passthrough originalViewBox

/-! # Theorems -/

/-! ## Color-math lemmas -/

set_option maxRecDepth 4000 in
theorem jsParseIntHex_toHex2 : ∀ c : Nat, c < 256 → jsParseIntHex (toHex2 c) = some c := by
  decide

set_option maxRecDepth 4000 in
theorem toHex2_data_length : ∀ c : Nat, c < 256 → (toHex2 c).data.length = 2 := by
  decide

set_option maxRecDepth 4000 in
theorem groutChan_le : ∀ c : Nat, c < 256 → groutChan true c ≤ c ∧ groutChan false c ≤ c := by
  decide

set_option maxRecDepth 4000 in
theorem groutChan_lt : ∀ c : Nat, c < 256 → 4 ≤ c → groutChan true c < c ∧ groutChan false c < c := by
  decide

theorem lumQ_eq (r g b : Nat) :
    lumQ r g b = ((299 * r + 587 * g + 114 * b : Nat) : ℚ) / 255000 := by
  unfold lumQ
  push_cast
  have h299 : (0.299 : ℚ) = 299 / 1000 := by norm_num
  have h587 : (0.587 : ℚ) = 587 / 1000 := by norm_num
  have h114 : (0.114 : ℚ) = 114 / 1000 := by norm_num
  rw [h299, h587, h114]
  ring

theorem lumQ_le_lumQ {r g b R G B : Nat}
    (h : 299 * r + 587 * g + 114 * b ≤ 299 * R + 587 * G + 114 * B) :
    lumQ r g b ≤ lumQ R G B := by
  rw [lumQ_eq, lumQ_eq, div_le_div_iff_of_pos_right (by norm_num : (0 : ℚ) < 255000)]
  exact_mod_cast h

theorem lumQ_lt_lumQ {r g b R G B : Nat}
    (h : 299 * r + 587 * g + 114 * b < 299 * R + 587 * G + 114 * B) :
    lumQ r g b < lumQ R G B := by
  rw [lumQ_eq, lumQ_eq, div_lt_div_iff_of_pos_right (by norm_num : (0 : ℚ) < 255000)]
  exact_mod_cast h

theorem half_lt_lumQ_iff (r g b : Nat) :
    (1 / 2 : ℚ) < lumQ r g b ↔ 127500 < 299 * r + 587 * g + 114 * b := by
  rw [lumQ_eq, div_lt_div_iff₀ (by norm_num) (by norm_num : (0 : ℚ) < 255000)]
  norm_cast
  omega

theorem adjustColorBrightness_eval (r g b : Nat) (hr : r < 256) (hg : g < 256) (hb : b < 256)
    (p : Int) :
    adjustColorBrightness (toHexColor r g b) p =
      toHexColor (groutChan (luminanceGtHalf r g b) r)
        (groutChan (luminanceGtHalf r g b) g) (groutChan (luminanceGtHalf r g b) b) := by
  have hx2 := toHex2_data_length r hr
  have hy2 := toHex2_data_length g hg
  have hz2 := toHex2_data_length b hb
  have hdata : removeFirstHash ("#" ++ toHex2 r ++ toHex2 g ++ toHex2 b).data =
      (toHex2 r).data ++ ((toHex2 g).data ++ (toHex2 b).data) := by
    rw [String.data_append, String.data_append, String.data_append]
    show removeFirstHash ('#' :: (toHex2 r).data ++ (toHex2 g).data ++ (toHex2 b).data) = _
    rw [List.cons_append, List.cons_append]
    show removeFirstHash ('#' :: _) = _
    rw [removeFirstHash, if_pos rfl, List.append_assoc]
  have hdrop2 : ((toHex2 r).data ++ ((toHex2 g).data ++ (toHex2 b).data)).drop 2 =
      (toHex2 g).data ++ (toHex2 b).data := List.drop_left' hx2
  have h1 : jsSubstring ⟨removeFirstHash ("#" ++ toHex2 r ++ toHex2 g ++ toHex2 b).data⟩ 0 2 =
      toHex2 r := by
    simp only [jsSubstring, hdata, List.drop_zero]
    rw [show (2 : Nat) - 0 = 2 from rfl, List.take_left' hx2]
  have h2 : jsSubstring ⟨removeFirstHash ("#" ++ toHex2 r ++ toHex2 g ++ toHex2 b).data⟩ 2 4 =
      toHex2 g := by
    simp only [jsSubstring, hdata]
    rw [show (4 : Nat) - 2 = 2 from rfl, hdrop2, List.take_left' hy2]
  have h3 : jsSubstring ⟨removeFirstHash ("#" ++ toHex2 r ++ toHex2 g ++ toHex2 b).data⟩ 4 6 =
      toHex2 b := by
    simp only [jsSubstring, hdata]
    rw [show (6 : Nat) - 4 = 2 from rfl,
      show (4 : Nat) = 2 + 2 from rfl, ← List.drop_drop, hdrop2, List.drop_left' hy2,
      List.take_of_length_le (le_of_eq hz2)]
  show adjustColorBrightness ("#" ++ toHex2 r ++ toHex2 g ++ toHex2 b) p = _
  simp only [adjustColorBrightness]
  rw [h1, h2, h3, jsParseIntHex_toHex2 r hr, jsParseIntHex_toHex2 g hg, jsParseIntHex_toHex2 b hb]
  simp only [toHexColor, groutChan]

theorem groutChan_any_le {c : Nat} (light : Bool) (hc : c < 256) : groutChan light c ≤ c := by
  cases light
  · exact (groutChan_le c hc).2
  · exact (groutChan_le c hc).1

theorem groutChan_any_lt {c : Nat} (light : Bool) (hc : c < 256) (h4 : 4 ≤ c) :
    groutChan light c < c := by
  cases light
  · exact (groutChan_lt c hc h4).2
  · exact (groutChan_lt c hc h4).1

/-! ## Claims C4 and C10: grout darkening -/

/-- Claim C4, counterexample.  The claim asserts that the grout color has
strictly lower perceptual luminance than the input color for every input;
at the input `#000000` the computed grout color is `#000000` itself, whose
luminance is not strictly lower. -/
theorem C4_counterexample :
    adjustColorBrightness "#000000" (-15) = "#000000" ∧ ¬ lumQ 0 0 0 < lumQ 0 0 0 :=
  ⟨by decide, lt_irrefl _⟩

/-- Claim C4, amended.  For every valid six-digit hex color the grout color
computed by `adjustColorBrightness` has lower-or-equal perceptual luminance
`(0.299·R + 0.587·G + 0.114·B)/255`, and strictly lower luminance whenever
some channel is at least 4 (for near-black inputs with all channels below 4
the rounded darkening returns the input unchanged).  The darkening factor
is 30% when the luminance is above the 0.5 midpoint and 15% otherwise,
except that the single boundary triple `(218, 58, 248)` — exact luminance
0.5 — lands in the 30% branch because the double evaluation of its
luminance is just above 0.5. -/
theorem C4_grout_darkening (r g b : Nat) (hr : r < 256) (hg : g < 256) (hb : b < 256) :
    adjustColorBrightness (toHexColor r g b) (-15)
      = toHexColor (groutChan (luminanceGtHalf r g b) r) (groutChan (luminanceGtHalf r g b) g)
          (groutChan (luminanceGtHalf r g b) b) ∧
    lumQ (groutChan (luminanceGtHalf r g b) r) (groutChan (luminanceGtHalf r g b) g)
        (groutChan (luminanceGtHalf r g b) b) ≤ lumQ r g b ∧
    ((4 ≤ r ∨ 4 ≤ g ∨ 4 ≤ b) →
      lumQ (groutChan (luminanceGtHalf r g b) r) (groutChan (luminanceGtHalf r g b) g)
          (groutChan (luminanceGtHalf r g b) b) < lumQ r g b) ∧
    (luminanceGtHalf r g b = true ↔
      (1 / 2 : ℚ) < lumQ r g b ∨ (r = 218 ∧ g = 58 ∧ b = 248)) := by
  set L := luminanceGtHalf r g b with hL
  have er : groutChan L r ≤ r := groutChan_any_le L hr
  have eg : groutChan L g ≤ g := groutChan_any_le L hg
  have eb : groutChan L b ≤ b := groutChan_any_le L hb
  refine ⟨adjustColorBrightness_eval r g b hr hg hb (-15), ?_, ?_, ?_⟩
  · exact lumQ_le_lumQ (by omega)
  · rintro (h4 | h4 | h4)
    · have := groutChan_any_lt L hr h4
      exact lumQ_lt_lumQ (by omega)
    · have := groutChan_any_lt L hg h4
      exact lumQ_lt_lumQ (by omega)
    · have := groutChan_any_lt L hb h4
      exact lumQ_lt_lumQ (by omega)
  · rw [half_lt_lumQ_iff, hL]
    simp only [luminanceGtHalf, decide_eq_true_eq, gt_iff_lt]

/-- Claim C4, witness: the light catalog color `#f5f5f0` is strictly
darkened. -/
theorem C4_witness :
    adjustColorBrightness (toHexColor 245 245 240) (-15)
      = toHexColor (groutChan (luminanceGtHalf 245 245 240) 245)
          (groutChan (luminanceGtHalf 245 245 240) 245)
          (groutChan (luminanceGtHalf 245 245 240) 240) ∧
    lumQ (groutChan (luminanceGtHalf 245 245 240) 245)
        (groutChan (luminanceGtHalf 245 245 240) 245)
        (groutChan (luminanceGtHalf 245 245 240) 240) < lumQ 245 245 240 := by
  have h := C4_grout_darkening 245 245 240 (by decide) (by decide) (by decide)
  exact ⟨h.1, h.2.2.1 (Or.inl (by decide))⟩

/-- Claim C10 (confirmed).  For every valid six-digit hex input, each RGB
channel of the grout color computed by `adjustColorBrightness` is at most
the corresponding channel of the input, and the per-channel bound holds in
both luminance branches separately. -/
theorem C10_channels_never_brighter (r g b : Nat) (hr : r < 256) (hg : g < 256) (hb : b < 256) :
    adjustColorBrightness (toHexColor r g b) (-15)
      = toHexColor (groutChan (luminanceGtHalf r g b) r) (groutChan (luminanceGtHalf r g b) g)
          (groutChan (luminanceGtHalf r g b) b) ∧
    groutChan (luminanceGtHalf r g b) r ≤ r ∧
    groutChan (luminanceGtHalf r g b) g ≤ g ∧
    groutChan (luminanceGtHalf r g b) b ≤ b ∧
    (∀ c : Nat, c < 256 → groutChan true c ≤ c ∧ groutChan false c ≤ c) :=
  ⟨adjustColorBrightness_eval r g b hr hg hb (-15),
    groutChan_any_le (luminanceGtHalf r g b) hr,
    groutChan_any_le (luminanceGtHalf r g b) hg,
    groutChan_any_le (luminanceGtHalf r g b) hb,
    groutChan_le⟩

/-! ## Document-update lemmas -/

theorem SvgDoc.ext2 {d1 d2 : SvgDoc} (he : d1.elems = d2.elems) (hd : d1.defs = d2.defs) :
    d1 = d2 := by
  cases d1; cases d2; cases he; cases hd; rfl

theorem updateElems_cons (j : Nat) (rest : List Nat) (f : Elem → Elem) (d : SvgDoc) :
    updateElems (j :: rest) f d = updateElems rest f
      (match d.elems.get? j with
        | some e => { d with elems := d.elems.set j (f e) }
        | none => d) := rfl

theorem updateElems_defs (idxs : List Nat) (f : Elem → Elem) :
    ∀ d : SvgDoc, (updateElems idxs f d).defs = d.defs := by
  induction idxs with
  | nil => intro d; rfl
  | cons j rest ih =>
    intro d
    rw [updateElems_cons]
    cases hj : d.elems.get? j <;> simp only [ih]

theorem updateElems_get_not_mem (idxs : List Nat) (f : Elem → Elem) (i : Nat)
    (hi : i ∉ idxs) : ∀ d : SvgDoc, (updateElems idxs f d).elems.get? i = d.elems.get? i := by
  induction idxs with
  | nil => intro d; rfl
  | cons j rest ih =>
    intro d
    have hij : j ≠ i := fun h => hi (h ▸ List.mem_cons_self j rest)
    have hirest : i ∉ rest := fun h => hi (List.mem_cons_of_mem j h)
    rw [updateElems_cons]
    cases hj : d.elems.get? j with
    | none => exact ih hirest d
    | some e => rw [ih hirest]; exact List.get?_set_ne (f e) d.elems hij

theorem updateElems_get_mem (idxs : List Nat) (f : Elem → Elem) (i : Nat)
    (hf : ∀ e, f (f e) = f e) (hi : i ∈ idxs) :
    ∀ d : SvgDoc, (updateElems idxs f d).elems.get? i = (d.elems.get? i).map f := by
  induction idxs with
  | nil => cases hi
  | cons j rest ih =>
    intro d
    rw [updateElems_cons]
    by_cases hirest : i ∈ rest
    · cases hj : d.elems.get? j with
      | none => exact ih hirest d
      | some e =>
        rw [ih hirest]
        by_cases hij : j = i
        · subst hij
          obtain ⟨hlt, -⟩ := List.get?_eq_some.mp hj
          rw [List.get?_set_eq_of_lt (f e) hlt, hj]
          simp [hf e]
        · rw [List.get?_set_ne (f e) d.elems hij]
    · have hij : i = j := by
        rcases List.mem_cons.mp hi with h | h
        · exact h
        · exact absurd h hirest
      subst hij
      cases hj : d.elems.get? i with
      | none => rw [updateElems_get_not_mem rest f i hirest, hj]; rfl
      | some e =>
        rw [updateElems_get_not_mem rest f i hirest]
        obtain ⟨hlt, -⟩ := List.get?_eq_some.mp hj
        rw [List.get?_set_eq_of_lt (f e) hlt]
        rfl

theorem clearAndSetFill_idem (v : String) (e : Elem) :
    clearAndSetFill v (clearAndSetFill v e) = clearAndSetFill v e := rfl

theorem fallbackGray_idem (e : Elem) : fallbackGray (fallbackGray e) = fallbackGray e := rfl

theorem clearAndSetFill_idAttr (v : String) (e : Elem) :
    (clearAndSetFill v e).idAttr = e.idAttr := rfl

theorem fallbackGray_idAttr (e : Elem) : (fallbackGray e).idAttr = e.idAttr := rfl

theorem createTilePattern_elems (svg : SvgDoc) (c : String) :
    (createTilePattern svg c).elems = svg.elems := by
  cases h : svg.defs <;>
    simp [createTilePattern, ensureDefs, removePattern, appendPattern, h]

/-! ## Claims C2 and C9: flat-color application and the no-op guards -/

/-- Claim C2, counterexample.  The claim asserts that for every one of the
five categories a flat-color material ends with both fill slots equal to
the normalized hex value of the color.  In the composite pass the floor
pass installs the synthetic tile pattern and points the region at
`url(#floor-tile-pattern)` rather than at the hex value; and the other
passes write the material value verbatim, so an uppercase value stays
uppercase instead of the normalized lowercase form. -/
theorem C2_counterexample :
    let floorMat : TextureOption := { id := "floor-blue", ttype := "color", value := "#aabbcc" }
    let ctMat : TextureOption := { id := "ct-cream", ttype := "color", value := "#FFF9D3" }
    let doc : SvgDoc := { elems := [
      { idAttr := some "floor-surface", core := { fillAttr := some "#111111" } },
      { idAttr := some "countertop-surface-4", core := { fillAttr := some "#222222" } }] }
    let out := applyTextures (fun _ => none) "" "kitchen-preview"
      { floor := some floorMat, countertop := some ctMat } doc
    ((out.elems.get? 0).map (fun e => e.core.fillAttr)
        = some (some "url(#floor-tile-pattern)") ∧
      "url(#floor-tile-pattern)" ≠ "#aabbcc") ∧
    ((out.elems.get? 1).map (fun e => e.core.fillAttr) = some (some "#FFF9D3") ∧
      "#FFF9D3" ≠ "#fff9d3") := by
  decide

/-- Evaluation of the flat-color branch of `updateSurface`. -/
theorem updateSurface_color (loader : String → Option Image) (baseUrl : String)
    (svg : SvgDoc) (selArg : SelectorArg) (opt : TextureOption) (isFloor : Bool)
    (hty : opt.ttype = "color") (hne : resolveSelector svg selArg ≠ []) :
    updateSurface loader baseUrl svg selArg (some opt) isFloor =
      updateElems (resolveSelector svg selArg)
        (clearAndSetFill (if isFloor then "url(#floor-tile-pattern)" else opt.value))
        (if isFloor then createTilePattern svg opt.value else svg) := by
  have h0 : ¬ ((resolveSelector svg selArg).isEmpty = true) := by
    cases h : resolveSelector svg selArg with
    | nil => exact absurd h hne
    | cons a l => simp
  simp only [updateSurface, hty]
  rw [if_neg h0, if_pos trivial, if_neg (show ¬ (("color" : String) = "") by decide)]

/-- Claim C2, amended.  Applying a flat-color material clears the prior
fill attribute, inline fill and stroke of every resolved region element and
sets both the fill attribute and the inline style fill; the installed value
is the material value written verbatim for the four non-floor categories,
and the tile-pattern reference `url(#floor-tile-pattern)` for the floor
category. -/
theorem C2_flat_color_fill (loader : String → Option Image) (baseUrl : String)
    (svg : SvgDoc) (selArg : SelectorArg) (opt : TextureOption) (isFloor : Bool)
    (i : Nat) (e : Elem)
    (hty : opt.ttype = "color")
    (hmem : i ∈ resolveSelector svg selArg)
    (he : svg.elems.get? i = some e) :
    (updateSurface loader baseUrl svg selArg (some opt) isFloor).elems.get? i
      = some (clearAndSetFill (if isFloor then "url(#floor-tile-pattern)" else opt.value) e) := by
  have hne : resolveSelector svg selArg ≠ [] := by
    intro h; rw [h] at hmem; cases hmem
  rw [updateSurface_color loader baseUrl svg selArg opt isFloor hty hne,
    updateElems_get_mem _ _ i (clearAndSetFill_idem _) hmem]
  have helems : (if isFloor then createTilePattern svg opt.value else svg).elems = svg.elems := by
    cases isFloor <;> simp [createTilePattern_elems]
  rw [helems, he]
  rfl

/-- Claim C2, witness: a countertop region painted with the flat marble
color `#f5f5f0`. -/
theorem C2_witness :
    (updateSurface (fun _ => none) ""
        { elems := [{ idAttr := some "countertop-surface-4",
                      core := { fillAttr := some "#8d8975" } }] }
        (.many ["countertop-surface-4"])
        (some { id := "marble", ttype := "color", value := "#f5f5f0" }) false).elems.get? 0
      = some (clearAndSetFill (if false then "url(#floor-tile-pattern)" else "#f5f5f0")
          { idAttr := some "countertop-surface-4", core := { fillAttr := some "#8d8975" } }) :=
  C2_flat_color_fill (fun _ => none) ""
    { elems := [{ idAttr := some "countertop-surface-4",
                  core := { fillAttr := some "#8d8975" } }] }
    (.many ["countertop-surface-4"])
    { id := "marble", ttype := "color", value := "#f5f5f0" } false 0
    { idAttr := some "countertop-surface-4", core := { fillAttr := some "#8d8975" } }
    rfl (by decide) rfl

/-- Claim C9 (confirmed).  With no selected material, or with no resolved
region elements, `updateSurface` leaves the document exactly as it was:
every fill attribute and inline style persists. -/
theorem C9_noop_guards (loader : String → Option Image) (baseUrl : String)
    (svg : SvgDoc) (selArg : SelectorArg) (isFloor : Bool) :
    updateSurface loader baseUrl svg selArg none isFloor = svg ∧
    (∀ opt : TextureOption, resolveSelector svg selArg = [] →
      updateSurface loader baseUrl svg selArg (some opt) isFloor = svg) := by
  constructor
  · rfl
  · intro opt h
    simp [updateSurface, h]

/-- Claim C9, witness: a selector whose ids match nothing leaves a document
unchanged even with a material selected, and an absent material does too. -/
theorem C9_witness :
    updateSurface (fun _ => none) ""
        ({ elems := [{ idAttr := some "floor-surface",
                       core := { fillAttr := some "#101010" } }] } : SvgDoc)
        (.many ["no-such-id"]) none false
      = { elems := [{ idAttr := some "floor-surface",
                      core := { fillAttr := some "#101010" } }] } ∧
    updateSurface (fun _ => none) ""
        ({ elems := [{ idAttr := some "floor-surface",
                       core := { fillAttr := some "#101010" } }] } : SvgDoc)
        (.many ["no-such-id"])
        (some { id := "m", ttype := "color", value := "#123456" }) false
      = { elems := [{ idAttr := some "floor-surface",
                      core := { fillAttr := some "#101010" } }] } :=
  ⟨(C9_noop_guards (fun _ => none) "" _ (.many ["no-such-id"]) false).1,
    (C9_noop_guards (fun _ => none) "" _ (.many ["no-such-id"]) false).2
      { id := "m", ttype := "color", value := "#123456" } (by decide)⟩

/-! ## Id-stability lemmas

`updateSurface` never changes an element id or the element count, so
id-based resolution is unchanged across composite passes. -/

theorem set_of_get? : ∀ (l : List α) (i : Nat) (a : α), l.get? i = some a → l.set i a = l := by
  intro l
  induction l with
  | nil => intro i a h; cases h
  | cons x xs ih =>
    intro i a h
    cases i with
    | zero => cases h; rfl
    | succ n =>
      simp only [List.get?] at h
      simp only [List.set]
      rw [ih n a h]

theorem updateElems_idmap (idxs : List Nat) (f : Elem → Elem)
    (hf : ∀ e, (f e).idAttr = e.idAttr) :
    ∀ d : SvgDoc, (updateElems idxs f d).elems.map (fun e => e.idAttr)
      = d.elems.map (fun e => e.idAttr) := by
  induction idxs with
  | nil => intro d; rfl
  | cons j rest ih =>
    intro d
    rw [updateElems_cons]
    cases hj : d.elems.get? j with
    | none => exact ih d
    | some e =>
      rw [ih]
      show (d.elems.set j (f e)).map (fun e => e.idAttr) = _
      rw [List.map_set]
      have : (d.elems.map (fun e => e.idAttr)).get? j = some e.idAttr := by
        rw [List.get?_map, hj]; rfl
      rw [hf e, set_of_get? _ j e.idAttr this]

theorem textureDoc_elems (svg : SvgDoc) (p : PatternDef) (pid : String) :
    (appendPattern p (removePattern pid (ensureDefs svg))).elems = svg.elems := by
  cases h : svg.defs <;> simp [ensureDefs, removePattern, appendPattern, h]

theorem updateSurface_idmap (loader : String → Option Image) (baseUrl : String)
    (svg : SvgDoc) (selArg : SelectorArg) (opt : Option TextureOption) (isFloor : Bool) :
    (updateSurface loader baseUrl svg selArg opt isFloor).elems.map (fun e => e.idAttr)
      = svg.elems.map (fun e => e.idAttr) := by
  cases opt with
  | none => rfl
  | some o =>
    simp only [updateSurface]
    by_cases h0 : (resolveSelector svg selArg).isEmpty = true
    · rw [if_pos h0]
    · rw [if_neg h0]
      by_cases h1 : o.ttype = ""
      · rw [if_pos h1]
      · rw [if_neg h1]
        by_cases h2 : o.ttype = "color"
        · rw [if_pos h2, updateElems_idmap _ _ (clearAndSetFill_idAttr _)]
          cases isFloor <;> simp [createTilePattern_elems]
        · rw [if_neg h2]
          by_cases h3 : o.ttype = "texture"
          · rw [if_pos h3]
            cases hl : loader (getAssetUrl baseUrl o.value) with
            | some img =>
              rw [updateElems_idmap _ _ (clearAndSetFill_idAttr _), textureDoc_elems]
            | none => exact updateElems_idmap _ _ fallbackGray_idAttr svg
          · rw [if_neg h3]

theorem findIdxFrom_congr (p : Elem → Bool) (q : Option String → Bool)
    (hp : ∀ e, p e = q e.idAttr) :
    ∀ (l1 l2 : List Elem) (n : Nat),
      l1.map (fun e => e.idAttr) = l2.map (fun e => e.idAttr) →
      findIdxFrom p l1 n = findIdxFrom p l2 n := by
  intro l1
  induction l1 with
  | nil =>
    intro l2 n h
    cases l2 with
    | nil => rfl
    | cons y ys => simp at h
  | cons x xs ih =>
    intro l2 n h
    cases l2 with
    | nil => simp at h
    | cons y ys =>
      simp only [List.map_cons, List.cons.injEq] at h
      simp only [findIdxFrom, hp x, hp y, h.1]
      cases hq : q y.idAttr
      · simp only [Bool.false_eq_true, if_false]
        exact ih ys (n + 1) h.2
      · rfl

theorem querySelectorIdx_congr (d1 d2 : SvgDoc) (id : String)
    (h : d1.elems.map (fun e => e.idAttr) = d2.elems.map (fun e => e.idAttr)) :
    querySelectorIdx d1 id = querySelectorIdx d2 id :=
  findIdxFrom_congr _ (fun a => a = some id) (fun _ => rfl) _ _ 0 h

theorem selectByIds_congr (ids : List String) (d1 d2 : SvgDoc)
    (h : d1.elems.map (fun e => e.idAttr) = d2.elems.map (fun e => e.idAttr)) :
    selectByIds ids d1 = selectByIds ids d2 := by
  unfold selectByIds
  congr 1
  funext id
  exact querySelectorIdx_congr d1 d2 id h

theorem findIdxFrom_some (p : Elem → Bool) :
    ∀ (l : List Elem) (n i : Nat), findIdxFrom p l n = some i →
      ∃ e, l.get? (i - n) = some e ∧ p e = true ∧ n ≤ i := by
  intro l
  induction l with
  | nil => intro n i h; cases h
  | cons x xs ih =>
    intro n i h
    simp only [findIdxFrom] at h
    by_cases hx : p x = true
    · rw [if_pos hx] at h
      cases h
      exact ⟨x, by simp, hx, le_refl _⟩
    · rw [if_neg hx] at h
      obtain ⟨e, hget, hpe, hni⟩ := ih (n + 1) i h
      refine ⟨e, ?_, hpe, by omega⟩
      have : i - n = (i - (n + 1)) + 1 := by omega
      rw [this]
      simpa using hget

theorem querySelectorIdx_some (svg : SvgDoc) (id : String) (i : Nat)
    (h : querySelectorIdx svg id = some i) :
    ∃ e, svg.elems.get? i = some e ∧ e.idAttr = some id := by
  obtain ⟨e, hget, hpe, -⟩ := findIdxFrom_some _ svg.elems 0 i h
  refine ⟨e, by simpa using hget, by simpa using hpe⟩

theorem mem_selectByIds (ids : List String) (svg : SvgDoc) (i : Nat)
    (h : i ∈ selectByIds ids svg) :
    ∃ id ∈ ids, ∃ e, svg.elems.get? i = some e ∧ e.idAttr = some id := by
  obtain ⟨id, hid, hq⟩ := List.mem_filterMap.mp h
  obtain ⟨e, hget, hattr⟩ := querySelectorIdx_some svg id i hq
  exact ⟨id, hid, e, hget, hattr⟩

/-! ## Claim C3: idempotent texture application -/

theorem ensureDefs_defs (svg : SvgDoc) : (ensureDefs svg).defs = some (svg.defs.getD []) := by
  cases h : svg.defs <;> simp [ensureDefs, h]

theorem ensureDefs_of_some (svg : SvgDoc) (l : List PatternDef) (h : svg.defs = some l) :
    ensureDefs svg = svg := by
  simp [ensureDefs, h]

theorem updateSurface_texture_some (loader : String → Option Image) (baseUrl : String)
    (svg : SvgDoc) (selArg : SelectorArg) (opt : TextureOption) (img : Image)
    (hty : opt.ttype = "texture") (hne : resolveSelector svg selArg ≠ [])
    (hl : loader (getAssetUrl baseUrl opt.value) = some img) :
    updateSurface loader baseUrl svg selArg (some opt) false =
      updateElems (resolveSelector svg selArg)
        (clearAndSetFill ("url(#" ++ ("texture-" ++ opt.id) ++ ")"))
        (appendPattern
          { pid := "texture-" ++ opt.id
            content := .textureImage img.src (patternCellW img) (patternCellH img) }
          (removePattern ("texture-" ++ opt.id) (ensureDefs svg))) := by
  have h0 : ¬ ((resolveSelector svg selArg).isEmpty = true) := by
    cases h : resolveSelector svg selArg with
    | nil => exact absurd h hne
    | cons a l => simp
  simp only [updateSurface, hty, hl]
  rw [if_neg h0]
  simp

theorem filter_eraseP_nil (p : PatternDef → Bool) :
    ∀ l : List PatternDef, (l.filter p).length ≤ 1 → (l.eraseP p).filter p = [] := by
  intro l
  induction l with
  | nil => intro h; rfl
  | cons x xs ih =>
    intro h
    by_cases hx : p x = true
    · rw [List.eraseP_cons_of_pos hx]
      rw [List.filter_cons_of_pos hx] at h
      have hnil : (xs.filter p).length = 0 := by
        simp only [List.length_cons] at h
        omega
      exact List.length_eq_zero.mp hnil
    · have hx2 : ¬ p x = true := hx
      rw [List.eraseP_cons_of_neg hx2, List.filter_cons_of_neg hx2]
      rw [List.filter_cons_of_neg hx2] at h
      exact ih h

theorem updateElems_self (idxs : List Nat) (f : Elem → Elem)
    (hf : ∀ e, f (f e) = f e) (d : SvgDoc) :
    updateElems idxs f (updateElems idxs f d) = updateElems idxs f d := by
  apply SvgDoc.ext2
  · apply List.ext
    intro n
    by_cases hn : n ∈ idxs
    · rw [updateElems_get_mem idxs f n hf hn, updateElems_get_mem idxs f n hf hn,
        Option.map_map]
      congr 1
      funext e
      exact hf e
    · rw [updateElems_get_not_mem idxs f n hn]
  · rw [updateElems_defs, updateElems_defs]

/-- Claim C3 (confirmed).  Applying the same tiled-image material twice in a
row to the same document yields the same document as applying it once
(every region fill included), and afterwards the shared `defs` section
holds exactly one pattern resource keyed `texture-<material id>` — the
source removes any existing pattern with that id before appending the
fresh one, so the count stays at one rather than duplicating.  The
hypotheses say the material is a tiled image whose image resolves, that at
least one region matched, and that the document did not already hold
duplicate resources under that key. -/
theorem C3_texture_idempotent (loader : String → Option Image) (baseUrl : String)
    (svg : SvgDoc) (ids : List String) (opt : TextureOption) (img : Image)
    (hty : opt.ttype = "texture")
    (hl : loader (getAssetUrl baseUrl opt.value) = some img)
    (hne : resolveSelector svg (.many ids) ≠ [])
    (hcount : patternCount svg ("texture-" ++ opt.id) ≤ 1) :
    updateSurface loader baseUrl
        (updateSurface loader baseUrl svg (.many ids) (some opt) false)
        (.many ids) (some opt) false
      = updateSurface loader baseUrl svg (.many ids) (some opt) false ∧
    patternCount (updateSurface loader baseUrl svg (.many ids) (some opt) false)
      ("texture-" ++ opt.id) = 1 := by
  have hidmap := updateSurface_idmap loader baseUrl svg (.many ids) (some opt) false
  have hstep1 := updateSurface_texture_some loader baseUrl svg (.many ids) opt img hty hne hl
  set d1 := updateSurface loader baseUrl svg (.many ids) (some opt) false with hd1
  have hd1defs : d1.defs
      = some (((svg.defs.getD []).eraseP (fun q => q.pid = "texture-" ++ opt.id)) ++
          [{ pid := "texture-" ++ opt.id,
             content := .textureImage img.src (patternCellW img) (patternCellH img) }]) := by
    rw [hstep1, updateElems_defs]
    simp [appendPattern, removePattern, ensureDefs_defs]
  have hl1nil : (((svg.defs.getD []).eraseP
        (fun q => q.pid = "texture-" ++ opt.id)).filter
      (fun q => q.pid = "texture-" ++ opt.id)) = [] := by
    apply filter_eraseP_nil
    simpa [patternCount] using hcount
  have hl1none : ∀ q ∈ (svg.defs.getD []).eraseP
      (fun q => q.pid = "texture-" ++ opt.id),
      ¬ ((fun q => (decide (q.pid = "texture-" ++ opt.id))) q = true) := by
    intro q hq hcontra
    have hmem : q ∈ ((svg.defs.getD []).eraseP
        (fun q => q.pid = "texture-" ++ opt.id)).filter
        (fun q => q.pid = "texture-" ++ opt.id) := List.mem_filter.mpr ⟨hq, hcontra⟩
    rw [hl1nil] at hmem
    cases hmem
  have hcount1 : patternCount d1 ("texture-" ++ opt.id) = 1 := by
    rw [patternCount, hd1defs]
    simp only [Option.getD_some, List.filter_append, hl1nil, List.nil_append]
    simp
  have hres : resolveSelector d1 (.many ids) = resolveSelector svg (.many ids) := by
    show selectByIds ids d1 = selectByIds ids svg
    exact selectByIds_congr ids d1 svg hidmap
  have hne2 : resolveSelector d1 (.many ids) ≠ [] := by rw [hres]; exact hne
  have hstep2 := updateSurface_texture_some loader baseUrl d1 (.many ids) opt img hty hne2 hl
  have hbase2 : appendPattern
      { pid := "texture-" ++ opt.id,
        content := .textureImage img.src (patternCellW img) (patternCellH img) }
      (removePattern ("texture-" ++ opt.id) (ensureDefs d1)) = d1 := by
    apply SvgDoc.ext2
    · rw [textureDoc_elems]
    · rw [ensureDefs_of_some d1 _ hd1defs]
      simp only [appendPattern, removePattern, hd1defs, Option.map_some']
      rw [List.eraseP_append_right _ hl1none]
      simp
  refine ⟨?_, hcount1⟩
  rw [hstep2, hres, hbase2, hstep1]
  exact updateElems_self _ _ (clearAndSetFill_idem _) _

/-! ## Claim C5: texture-failure fallback inside the composite pass -/

theorem updateSurface_texture_none (loader : String → Option Image) (baseUrl : String)
    (svg : SvgDoc) (selArg : SelectorArg) (opt : TextureOption) (isFloor : Bool)
    (hty : opt.ttype = "texture") (hne : resolveSelector svg selArg ≠ [])
    (hl : loader (getAssetUrl baseUrl opt.value) = none) :
    updateSurface loader baseUrl svg selArg (some opt) isFloor =
      updateElems (resolveSelector svg selArg) fallbackGray svg := by
  have h0 : ¬ ((resolveSelector svg selArg).isEmpty = true) := by
    cases h : resolveSelector svg selArg with
    | nil => exact absurd h hne
    | cons a l => simp
  simp only [updateSurface, hty, hl]
  rw [if_neg h0]
  simp

theorem updateSurface_get_not_resolved (loader : String → Option Image) (baseUrl : String)
    (svg : SvgDoc) (selArg : SelectorArg) (opt : Option TextureOption) (isFloor : Bool)
    (i : Nat) (hi : i ∉ resolveSelector svg selArg) :
    (updateSurface loader baseUrl svg selArg opt isFloor).elems.get? i = svg.elems.get? i := by
  cases opt with
  | none => rfl
  | some o =>
    simp only [updateSurface]
    by_cases h0 : (resolveSelector svg selArg).isEmpty = true
    · rw [if_pos h0]
    · rw [if_neg h0]
      by_cases h1 : o.ttype = ""
      · rw [if_pos h1]
      · rw [if_neg h1]
        by_cases h2 : o.ttype = "color"
        · rw [if_pos h2, updateElems_get_not_mem _ _ i hi]
          cases isFloor <;> simp [createTilePattern_elems]
        · rw [if_neg h2]
          by_cases h3 : o.ttype = "texture"
          · rw [if_pos h3]
            cases hl : loader (getAssetUrl baseUrl o.value) with
            | some img =>
              rw [updateElems_get_not_mem _ _ i hi, textureDoc_elems]
            | none => exact updateElems_get_not_mem _ _ i hi svg
          · rw [if_neg h3]

theorem selectByIds_not_mem_of_mem (A B : List String) (svg : SvgDoc) (i : Nat)
    (hA : i ∈ selectByIds A svg) (hdisj : ∀ id ∈ A, id ∉ B) :
    i ∉ selectByIds B svg := by
  intro hB
  obtain ⟨ida, hida, ea, hea, haid⟩ := mem_selectByIds A svg i hA
  obtain ⟨idb, hidb, eb, heb, hbid⟩ := mem_selectByIds B svg i hB
  rw [hea] at heb
  cases heb
  rw [haid] at hbid
  cases hbid
  exact hdisj ida hida hidb

theorem getSceneSelectors_default :
    getSceneSelectors "kitchen-preview" =
      { background := selectByIds ["background-surface"]
        floor := selectByIds ["floor-surface", "floor-surface-main"]
        countertop := selectByIds defaultCountertopIds
        backsplash := selectByIds defaultBacksplashIds
        cabinet := selectByIds defaultCabinetIds } := by
  rw [getSceneSelectors, if_neg (by decide : ¬ ("kitchen-preview" = "kitchen-preview-2"))]

/-- Claim C5, counterexample.  The claim names `#cccccc` as the fallback
value; the source writes the three-digit shorthand `#ccc` (the same gray,
but a different attribute string). -/
theorem C5_counterexample :
    let doc : SvgDoc := { elems := [
      { idAttr := some "countertop-surface-4", core := { fillAttr := some "#8d8975" } }] }
    let opt : TextureOption :=
      { id := "granite", ttype := "texture", value := "textures/granite.jpg" }
    let out := applyTextures (fun _ => none) "" "kitchen-preview"
      { countertop := some opt } doc
    (out.elems.get? 0).map (fun e => e.core.fillAttr) = some (some "#ccc") ∧
    some "#ccc" ≠ some "#cccccc" := by
  decide

/-- Claim C5, amended.  When a tiled-image material fails to load during
the composite pass over the default scene, the failure is absorbed inside
that pass: every countertop region element ends with fill attribute and
inline style fill equal to the gray shorthand `#ccc` (not the six-digit
`#cccccc` the spec names), the later cabinet pass is still applied with
its own material, and the whole pass is a total function of the document
(no rejection escapes — the catch is inside `updateSurface`). -/
theorem C5_texture_failure_fallback (loader : String → Option Image) (baseUrl : String)
    (svg : SvgDoc) (sel : Selections) (t c : TextureOption)
    (ht : sel.countertop = some t) (htty : t.ttype = "texture")
    (hfail : loader (getAssetUrl baseUrl t.value) = none)
    (hc : sel.cabinet = some c) (hcty : c.ttype = "color") :
    (∀ i, i ∈ selectByIds defaultCountertopIds svg →
      ∃ e, (applyTextures loader baseUrl "kitchen-preview" sel svg).elems.get? i = some e ∧
        e.core.fillAttr = some "#ccc" ∧ e.core.styleFill = some "#ccc") ∧
    (∀ j e, j ∈ selectByIds defaultCabinetIds svg → svg.elems.get? j = some e →
      (applyTextures loader baseUrl "kitchen-preview" sel svg).elems.get? j
        = some (clearAndSetFill c.value e)) := by
  have hsel := getSceneSelectors_default
  have happly : applyTextures loader baseUrl "kitchen-preview" sel svg =
      updateSurface loader baseUrl
        (updateSurface loader baseUrl
          (updateSurface loader baseUrl
            (updateSurface loader baseUrl
              (updateSurface loader baseUrl svg
                (.fn (selectByIds ["background-surface"])) sel.background false)
              (.fn (selectByIds ["floor-surface", "floor-surface-main"])) sel.floor true)
            (.fn (selectByIds defaultCountertopIds)) sel.countertop false)
          (.fn (selectByIds defaultBacksplashIds)) sel.backsplash false)
        (.fn (selectByIds defaultCabinetIds)) sel.cabinet false := by
    rw [applyTextures, hsel]
  set d1 := updateSurface loader baseUrl svg
    (.fn (selectByIds ["background-surface"])) sel.background false with hd1
  set d2 := updateSurface loader baseUrl d1
    (.fn (selectByIds ["floor-surface", "floor-surface-main"])) sel.floor true with hd2
  set d3 := updateSurface loader baseUrl d2
    (.fn (selectByIds defaultCountertopIds)) sel.countertop false with hd3
  set d4 := updateSurface loader baseUrl d3
    (.fn (selectByIds defaultBacksplashIds)) sel.backsplash false with hd4
  -- id maps are stable across every pass
  have hm1 : d1.elems.map (fun e => e.idAttr) = svg.elems.map (fun e => e.idAttr) :=
    updateSurface_idmap loader baseUrl svg _ sel.background false
  have hm2 : d2.elems.map (fun e => e.idAttr) = svg.elems.map (fun e => e.idAttr) :=
    (updateSurface_idmap loader baseUrl d1 _ sel.floor true).trans hm1
  have hm3 : d3.elems.map (fun e => e.idAttr) = svg.elems.map (fun e => e.idAttr) :=
    (updateSurface_idmap loader baseUrl d2 _ sel.countertop false).trans hm2
  have hm4 : d4.elems.map (fun e => e.idAttr) = svg.elems.map (fun e => e.idAttr) :=
    (updateSurface_idmap loader baseUrl d3 _ sel.backsplash false).trans hm3
  constructor
  · intro i hi
    -- the countertop element is untouched by the background and floor passes
    have hnotbg : i ∉ selectByIds ["background-surface"] svg :=
      selectByIds_not_mem_of_mem defaultCountertopIds _ svg i hi (by decide)
    have hnotfl : i ∉ selectByIds ["floor-surface", "floor-surface-main"] svg :=
      selectByIds_not_mem_of_mem defaultCountertopIds _ svg i hi (by decide)
    have hnotbs : i ∉ selectByIds defaultBacksplashIds svg :=
      selectByIds_not_mem_of_mem defaultCountertopIds _ svg i hi (by decide)
    have hnotcab : i ∉ selectByIds defaultCabinetIds svg :=
      selectByIds_not_mem_of_mem defaultCountertopIds _ svg i hi (by decide)
    have hg1 : d1.elems.get? i = svg.elems.get? i := by
      rw [hd1]
      exact updateSurface_get_not_resolved loader baseUrl svg _ sel.background false i
        (by show i ∉ selectByIds _ svg; exact hnotbg)
    have hg2 : d2.elems.get? i = svg.elems.get? i := by
      rw [hd2]
      rw [updateSurface_get_not_resolved loader baseUrl d1 _ sel.floor true i
        (by show i ∉ selectByIds _ d1
            rw [selectByIds_congr _ d1 svg hm1]
            exact hnotfl)]
      exact hg1
    -- the countertop pass applies the gray fallback
    have hirc : i ∈ resolveSelector d2 (.fn (selectByIds defaultCountertopIds)) := by
      show i ∈ selectByIds defaultCountertopIds d2
      rw [selectByIds_congr _ d2 svg hm2]
      exact hi
    obtain ⟨id0, hid0, e0, he0, hattr0⟩ := mem_selectByIds defaultCountertopIds svg i hi
    have hg3 : d3.elems.get? i = some (fallbackGray e0) := by
      rw [hd3, ht,
        updateSurface_texture_none loader baseUrl d2 _ t false htty
          (by intro hnil; rw [hnil] at hirc; cases hirc) hfail,
        updateElems_get_mem _ _ i fallbackGray_idem hirc, hg2, he0]
      rfl
    have hg4 : d4.elems.get? i = some (fallbackGray e0) := by
      rw [hd4]
      rw [updateSurface_get_not_resolved loader baseUrl d3 _ sel.backsplash false i
        (by show i ∉ selectByIds _ d3
            rw [selectByIds_congr _ d3 svg hm3]
            exact hnotbs)]
      exact hg3
    refine ⟨fallbackGray e0, ?_, rfl, rfl⟩
    rw [happly]
    rw [updateSurface_get_not_resolved loader baseUrl d4 _ sel.cabinet false i
      (by show i ∉ selectByIds _ d4
          rw [selectByIds_congr _ d4 svg hm4]
          exact hnotcab)]
    exact hg4
  · intro j e hj he
    have hnotbg : j ∉ selectByIds ["background-surface"] svg :=
      selectByIds_not_mem_of_mem defaultCabinetIds _ svg j hj (by decide)
    have hnotfl : j ∉ selectByIds ["floor-surface", "floor-surface-main"] svg :=
      selectByIds_not_mem_of_mem defaultCabinetIds _ svg j hj (by decide)
    have hnotct : j ∉ selectByIds defaultCountertopIds svg :=
      selectByIds_not_mem_of_mem defaultCabinetIds _ svg j hj (by decide)
    have hnotbs : j ∉ selectByIds defaultBacksplashIds svg :=
      selectByIds_not_mem_of_mem defaultCabinetIds _ svg j hj (by decide)
    have hg1 : d1.elems.get? j = svg.elems.get? j := by
      rw [hd1]
      exact updateSurface_get_not_resolved loader baseUrl svg _ sel.background false j
        (by show j ∉ selectByIds _ svg; exact hnotbg)
    have hg2 : d2.elems.get? j = svg.elems.get? j := by
      rw [hd2]
      rw [updateSurface_get_not_resolved loader baseUrl d1 _ sel.floor true j
        (by show j ∉ selectByIds _ d1
            rw [selectByIds_congr _ d1 svg hm1]
            exact hnotfl)]
      exact hg1
    have hg3 : d3.elems.get? j = svg.elems.get? j := by
      rw [hd3]
      rw [updateSurface_get_not_resolved loader baseUrl d2 _ sel.countertop false j
        (by show j ∉ selectByIds _ d2
            rw [selectByIds_congr _ d2 svg hm2]
            exact hnotct)]
      exact hg2
    have hg4 : d4.elems.get? j = svg.elems.get? j := by
      rw [hd4]
      rw [updateSurface_get_not_resolved loader baseUrl d3 _ sel.backsplash false j
        (by show j ∉ selectByIds _ d3
            rw [selectByIds_congr _ d3 svg hm3]
            exact hnotbs)]
      exact hg3
    have hjc : j ∈ resolveSelector d4 (.fn (selectByIds defaultCabinetIds)) := by
      show j ∈ selectByIds defaultCabinetIds d4
      rw [selectByIds_congr _ d4 svg hm4]
      exact hj
    rw [happly, hc]
    have := C2_flat_color_fill loader baseUrl d4
      (.fn (selectByIds defaultCabinetIds)) c false j e hcty hjc (by rw [hg4]; exact he)
    simpa using this

/-- Claim C5, witness: a failing countertop texture next to a cabinet color
on the default scene. -/
theorem C5_witness :
    let doc : SvgDoc := { elems := [
      { idAttr := some "countertop-surface-4", core := { fillAttr := some "#8d8975" } },
      { idAttr := some "cabinet-surface-1", core := { fillAttr := some "#fff9d3" } }] }
    let t : TextureOption :=
      { id := "granite", ttype := "texture", value := "textures/granite.jpg" }
    let c : TextureOption := { id := "navy", ttype := "color", value := "#1b2a4a" }
    let sel : Selections := { countertop := some t, cabinet := some c }
    (∀ i, i ∈ selectByIds defaultCountertopIds doc →
      ∃ e, (applyTextures (fun _ => none) "" "kitchen-preview" sel doc).elems.get? i = some e ∧
        e.core.fillAttr = some "#ccc" ∧ e.core.styleFill = some "#ccc") ∧
    (∀ j e, j ∈ selectByIds defaultCabinetIds doc → doc.elems.get? j = some e →
      (applyTextures (fun _ => none) "" "kitchen-preview" sel doc).elems.get? j
        = some (clearAndSetFill "#1b2a4a" e)) := by
  exact C5_texture_failure_fallback (fun _ => none) ""
    { elems := [
      { idAttr := some "countertop-surface-4", core := { fillAttr := some "#8d8975" } },
      { idAttr := some "cabinet-surface-1", core := { fillAttr := some "#fff9d3" } }] }
    { countertop :=
        some { id := "granite", ttype := "texture", value := "textures/granite.jpg" },
      cabinet := some { id := "navy", ttype := "color", value := "#1b2a4a" } }
    { id := "granite", ttype := "texture", value := "textures/granite.jpg" }
    { id := "navy", ttype := "color", value := "#1b2a4a" }
    rfl rfl rfl rfl rfl

/-! ## Claim C1: fixed layering order and the cabinet-on-top consequence -/

theorem getSceneSelectors_preview2 :
    getSceneSelectors "kitchen-preview-2" =
      { background := fun svg =>
          findElementsByColor svg ["#BDBCC0", "#bdbcc0", "#BDBCB0", "#bdbc0"]
        floor := fun svg =>
          findElementsByColor svg ["#737373", "#615739", "#737373", "#615739",
            "#6B6B6B", "#5A5A5A", "#4A4A4A", "#3A3A3A"]
        countertop := fun svg =>
          findElementsByColor svg ["#8d8975", "#8D8975", "#8D8A75", "#8E8975",
            "#9D9975", "#7D7975", "#8C8874", "#8E8A76"]
        backsplash := backsplashByColor
        cabinet := fun svg =>
          findElementsByColor svg ["#fff9d3", "#FFF9D3", "#FFFAD3", "#FFF8D3",
            "#c9c5a7", "#C9C5A7", "#C9C6A7", "#C8C5A7", "#D9D5B7", "#E9E5C7"] } := by
  rw [getSceneSelectors, if_pos rfl]

theorem mem_pathFilter_get (svg : SvgDoc) (f : Nat × Elem → Option Nat)
    (hshape : ∀ p i, f p = some i → i = p.1) (i : Nat)
    (h : i ∈ (allPathIdx svg).filterMap f) : ∃ e, svg.elems.get? i = some e := by
  obtain ⟨p, hp, hf⟩ := List.mem_filterMap.mp h
  have hpe : p ∈ svg.elems.enum := (List.mem_filter.mp hp).1
  have hget : svg.elems.get? p.1 = some p.2 := List.mem_enum_iff_get?.mp hpe
  rw [hshape p i hf]
  exact ⟨p.2, hget⟩

theorem mem_findElementsByColor_get (svg : SvgDoc) (colors : List String) (i : Nat)
    (h : i ∈ findElementsByColor svg colors) : ∃ e, svg.elems.get? i = some e := by
  apply mem_pathFilter_get svg _ _ i h
  intro p j hf
  simp only at hf
  split at hf
  · cases hf; rfl
  · cases hf

/-- Claim C1 (confirmed).  First conjunct: the composite pass equals the
fold of one `applyMaterial` step per category over the spec-side layering
order background → floor → countertop → backsplash → cabinet.  Second
conjunct: because the cabinet pass runs last, any element that the
countertop selector resolved during the pass and that the cabinet selector
still resolves at cabinet time ends the pass with the cabinet material's
fill (its flat color, its texture-pattern reference, or the gray fallback
when its image fails) on both the fill attribute and the inline style. -/
theorem C1_layering_order :
    (∀ (loader : String → Option Image) (baseUrl sceneId : String) (sel : Selections)
        (svg : SvgDoc),
      applyTextures loader baseUrl sceneId sel svg
        = applyTexturesLayered loader baseUrl sceneId sel svg) ∧
    (∀ (loader : String → Option Image) (baseUrl : String) (sel : Selections) (svg : SvgDoc)
        (c : TextureOption) (i : Nat),
      sel.cabinet = some c →
      (c.ttype = "color" ∨ c.ttype = "texture") →
      i ∈ (getSceneSelectors "kitchen-preview-2").countertop
          (updateSurface loader baseUrl
            (updateSurface loader baseUrl svg
              (.fn (getSceneSelectors "kitchen-preview-2").background) sel.background false)
            (.fn (getSceneSelectors "kitchen-preview-2").floor) sel.floor true) →
      i ∈ (getSceneSelectors "kitchen-preview-2").cabinet
          (updateSurface loader baseUrl
            (updateSurface loader baseUrl
              (updateSurface loader baseUrl
                (updateSurface loader baseUrl svg
                  (.fn (getSceneSelectors "kitchen-preview-2").background) sel.background false)
                (.fn (getSceneSelectors "kitchen-preview-2").floor) sel.floor true)
              (.fn (getSceneSelectors "kitchen-preview-2").countertop) sel.countertop false)
            (.fn (getSceneSelectors "kitchen-preview-2").backsplash) sel.backsplash false) →
      ∃ e, (applyTextures loader baseUrl "kitchen-preview-2" sel svg).elems.get? i = some e ∧
        e.core.fillAttr = some (surfaceFillValue loader baseUrl c false) ∧
        e.core.styleFill = some (surfaceFillValue loader baseUrl c false)) := by
  constructor
  · intro loader baseUrl sceneId sel svg
    rfl
  · intro loader baseUrl sel svg c i hcab hcty hct hcabmem
    set d4 := updateSurface loader baseUrl
      (updateSurface loader baseUrl
        (updateSurface loader baseUrl
          (updateSurface loader baseUrl svg
            (.fn (getSceneSelectors "kitchen-preview-2").background) sel.background false)
          (.fn (getSceneSelectors "kitchen-preview-2").floor) sel.floor true)
        (.fn (getSceneSelectors "kitchen-preview-2").countertop) sel.countertop false)
      (.fn (getSceneSelectors "kitchen-preview-2").backsplash) sel.backsplash false with hd4
    have happly : applyTextures loader baseUrl "kitchen-preview-2" sel svg =
        updateSurface loader baseUrl d4
          (.fn (getSceneSelectors "kitchen-preview-2").cabinet) sel.cabinet false := rfl
    have hres : resolveSelector d4 (.fn (getSceneSelectors "kitchen-preview-2").cabinet)
        = (getSceneSelectors "kitchen-preview-2").cabinet d4 := rfl
    have hmem : i ∈ resolveSelector d4
        (.fn (getSceneSelectors "kitchen-preview-2").cabinet) := hcabmem
    have hne : resolveSelector d4 (.fn (getSceneSelectors "kitchen-preview-2").cabinet) ≠ [] := by
      intro hnil; rw [hnil] at hmem; cases hmem
    obtain ⟨e4, he4⟩ : ∃ e, d4.elems.get? i = some e := by
      have h2 := hcabmem
      rw [getSceneSelectors_preview2] at h2
      exact mem_findElementsByColor_get d4 _ i h2
    rcases hcty with hcolor | htex
    · rw [happly, hcab,
        updateSurface_color loader baseUrl d4 _ c false hcolor hne,
        updateElems_get_mem _ _ i (clearAndSetFill_idem _) hmem,
        show (if false then createTilePattern d4 c.value else d4) = d4 from rfl, he4]
      refine ⟨_, rfl, ?_, ?_⟩ <;> simp [clearAndSetFill, surfaceFillValue, hcolor]
    · cases hl : loader (getAssetUrl baseUrl c.value) with
      | some img =>
        rw [happly, hcab,
          updateSurface_texture_some loader baseUrl d4 _ c img htex hne hl,
          updateElems_get_mem _ _ i (clearAndSetFill_idem _) hmem, textureDoc_elems, he4]
        refine ⟨_, rfl, ?_, ?_⟩ <;>
          simp [clearAndSetFill, surfaceFillValue, htex, hl,
            (by decide : ¬ (("texture" : String) = "color"))]
      | none =>
        rw [happly, hcab,
          updateSurface_texture_none loader baseUrl d4 _ c false htex hne hl,
          updateElems_get_mem _ _ i fallbackGray_idem hmem, he4]
        refine ⟨_, rfl, ?_, ?_⟩ <;>
          simp [fallbackGray, surfaceFillValue, htex, hl,
            (by decide : ¬ (("texture" : String) = "color"))]

/-- Claim C1, witness: on the color-classification scene an element painted
with the countertop color `#fff9d3` (a cabinet reference color) is
re-resolved by the cabinet selector and ends with the cabinet color. -/
theorem C1_witness :
    let loader : String → Option Image := fun _ => none
    let doc : SvgDoc := { elems := [{ core := { fillAttr := some "#8d8975" } }] }
    let sel : Selections :=
      { countertop := some { id := "ct", ttype := "color", value := "#fff9d3" },
        cabinet := some { id := "cab", ttype := "color", value := "#5a3c28" } }
    ∃ e, (applyTextures loader "" "kitchen-preview-2" sel doc).elems.get? 0 = some e ∧
      e.core.fillAttr = some (surfaceFillValue loader ""
        { id := "cab", ttype := "color", value := "#5a3c28" } false) ∧
      e.core.styleFill = some (surfaceFillValue loader ""
        { id := "cab", ttype := "color", value := "#5a3c28" } false) := by
  exact C1_layering_order.2 (fun _ => none) ""
    { countertop := some { id := "ct", ttype := "color", value := "#fff9d3" },
      cabinet := some { id := "cab", ttype := "color", value := "#5a3c28" } }
    { elems := [{ core := { fillAttr := some "#8d8975" } }] }
    { id := "cab", ttype := "color", value := "#5a3c28" } 0
    rfl (Or.inl rfl) (by decide) (by decide)

/-- Claim C3, witness: the granite texture applied twice to one countertop
region. -/
theorem C3_witness :
    let loader : String → Option Image := fun s =>
      if s = "textures/granite.jpg" then
        some { src := "blob-granite", naturalWidth := 150, naturalHeight := 120 } else none
    let doc : SvgDoc := { elems := [
      { idAttr := some "countertop-surface-4", core := { fillAttr := some "#8d8975" } }] }
    let opt : TextureOption :=
      { id := "granite", ttype := "texture", value := "textures/granite.jpg" }
    updateSurface loader "" (updateSurface loader "" doc (.many ["countertop-surface-4"])
        (some opt) false) (.many ["countertop-surface-4"]) (some opt) false
      = updateSurface loader "" doc (.many ["countertop-surface-4"]) (some opt) false ∧
    patternCount (updateSurface loader "" doc (.many ["countertop-surface-4"]) (some opt) false)
      "texture-granite" = 1 := by
  exact C3_texture_idempotent _ "" _ ["countertop-surface-4"] _
    { src := "blob-granite", naturalWidth := 150, naturalHeight := 120 }
    rfl (by decide) (by decide) (by decide)

/-! ## Claim C6: effective fill-color resolution -/

theorem getElementFillColor_eq (e : ElemCore) (anc : List ElemCore) :
    getElementFillColor e anc =
      match resolveOwn e, anc with
      | some res, _ => res
      | none, [] => ""
      | none, parent :: rest => getElementFillColor parent rest := by
  rw [getElementFillColor.eq_def]

set_option maxRecDepth 4000 in
theorem toHex2_hexLower : ∀ c : Nat, c < 256 → (toHex2 c).data.length = 2 ∧
    ((toHex2 c).data.all (fun ch => isDigitChar ch ∨ ('a' ≤ ch ∧ ch ≤ 'f')) = true) := by
  decide

/-- Claim C6, counterexample.  The claim asserts the resolved value is
always normalized to a six-digit lowercase hex form; a three-digit fill
attribute `#FFF` resolves to the three-digit `#fff`, never expanded. -/
theorem C6_counterexample :
    getElementFillColor { fillAttr := some "#FFF" } [] = "#fff" ∧
    isSixHexLower (getElementFillColor { fillAttr := some "#FFF" } []) = false ∧
    getElementFillColor { fillAttr := some "#FFF" } [] ≠ "" := by
  decide

/-- Claim C6, amended.  The effective fill color is taken from the first
resolvable source in the order fill attribute (a non-empty value starting
with `#`, returned lowercased and trimmed), then the inline style fill
declaration (hex captures lowercased, rgb captures converted), then the
computed style, then the nearest resolvable ancestor; rgb()/rgba() values
convert to a six-digit lowercase hex form, but hex values — including
three-digit shorthands — are only lowercased, not expanded to six digits. -/
theorem C6_effective_fill (e : ElemCore) (anc : List ElemCore) :
    (∀ a, e.fillAttr = some a → a ≠ "" → jsStartsWith a "#" = true →
      getElementFillColor e anc = jsTrim (jsToLower a)) ∧
    (fillAttrResolvable e = false →
      ∀ res, styleStepRes e = some res → getElementFillColor e anc = res) ∧
    (fillAttrResolvable e = false → styleStepRes e = none →
      ∀ res, computedStepRes e = some res → getElementFillColor e anc = res) ∧
    (fillAttrResolvable e = false → styleStepRes e = none → computedStepRes e = none →
      (anc = [] → getElementFillColor e anc = "") ∧
      (∀ p rest, anc = p :: rest → getElementFillColor e anc = getElementFillColor p rest)) ∧
    (∀ (s : String) (r g b : Nat), rgbSearch s.data = some (r, g, b) →
      r < 256 → g < 256 → b < 256 → isSixHexLower (rgbToHex s) = true) := by
  refine ⟨?_, ?_, ?_, ?_, ?_⟩
  · intro a ha hne hhash
    have hres : fillAttrResolvable e = true := by
      simp [fillAttrResolvable, ha, hne, hhash]
    have hro : resolveOwn e = some (jsTrim (jsToLower a)) := by
      rw [resolveOwn, if_pos hres, ha]
      rfl
    rw [getElementFillColor_eq, hro]
  · intro hres res hstyle
    have hro : resolveOwn e = some res := by
      rw [resolveOwn, if_neg (by rw [hres]; exact Bool.false_ne_true), hstyle]
    rw [getElementFillColor_eq, hro]
  · intro hres hstyle res hcomp
    have hro : resolveOwn e = some res := by
      rw [resolveOwn, if_neg (by rw [hres]; exact Bool.false_ne_true), hstyle]
      exact hcomp
    rw [getElementFillColor_eq, hro]
  · intro hres hstyle hcomp
    have hro : resolveOwn e = none := by
      rw [resolveOwn, if_neg (by rw [hres]; exact Bool.false_ne_true), hstyle]
      exact hcomp
    constructor
    · intro hanc
      subst hanc
      rw [getElementFillColor_eq, hro]
    · intro p rest hanc
      subst hanc
      rw [getElementFillColor_eq, hro]
  · intro s r g b hsearch hr hg hb
    rw [rgbToHex, hsearch]
    have h1 := toHex2_hexLower r hr
    have h2 := toHex2_hexLower g hg
    have h3 := toHex2_hexLower b hb
    have hdata : ("#" ++ toHex2 r ++ toHex2 g ++ toHex2 b).data
        = '#' :: ((toHex2 r).data ++ (toHex2 g).data ++ (toHex2 b).data) := by
      rw [String.data_append, String.data_append, String.data_append]
      rfl
    rw [isSixHexLower, hdata]
    simp only [List.length_append, List.all_append, h1.1, h2.1, h3.1, h1.2, h2.2, h3.2]
    simp

/-- Claim C6, witness: a mixed-case trimmed fill attribute resolves through
step one, lowercased. -/
theorem C6_witness :
    getElementFillColor { fillAttr := some "#AbC123" } [] = "#abc123" :=
  ((C6_effective_fill { fillAttr := some "#AbC123" } []).1 "#AbC123" rfl (by decide)
    (by decide)).trans (by decide)

/-! ## Claim C7: dataset loading — bundled fallback and order-field sorting -/

theorem insertByOrder_perm (key : α → Int) (x : α) :
    ∀ l : List α, (insertByOrder key x l).Perm (x :: l) := by
  intro l
  induction l with
  | nil => exact List.Perm.refl _
  | cons y ys ih =>
    rw [insertByOrder]
    by_cases h : key x ≤ key y
    · rw [if_pos h]
    · rw [if_neg h]
      exact (ih.cons y).trans (List.Perm.swap x y ys)

theorem sortByOrder_perm (key : α → Int) :
    ∀ l : List α, (sortByOrder key l).Perm l := by
  intro l
  induction l with
  | nil => exact List.Perm.refl _
  | cons x xs ih =>
    exact (insertByOrder_perm key x (sortByOrder key xs)).trans (ih.cons x)

theorem mem_insertByOrder (key : α → Int) (x z : α) (l : List α) :
    z ∈ insertByOrder key x l ↔ z = x ∨ z ∈ l := by
  rw [(insertByOrder_perm key x l).mem_iff, List.mem_cons]

theorem insertByOrder_pairwise (key : α → Int) (x : α) :
    ∀ l : List α, l.Pairwise (fun a b => key a ≤ key b) →
      (insertByOrder key x l).Pairwise (fun a b => key a ≤ key b) := by
  intro l
  induction l with
  | nil => intro _; exact List.pairwise_singleton _ x
  | cons y ys ih =>
    intro h
    obtain ⟨hy, hys⟩ := List.pairwise_cons.mp h
    rw [insertByOrder]
    by_cases hxy : key x ≤ key y
    · rw [if_pos hxy]
      refine List.pairwise_cons.mpr ⟨?_, h⟩
      intro z hz
      rcases List.mem_cons.mp hz with rfl | hz
      · exact hxy
      · exact le_trans hxy (hy z hz)
    · rw [if_neg hxy]
      refine List.pairwise_cons.mpr ⟨?_, ih hys⟩
      intro z hz
      rcases (mem_insertByOrder key x z ys).mp hz with rfl | hz
      · exact le_of_not_le hxy
      · exact hy z hz

theorem sortByOrder_pairwise (key : α → Int) :
    ∀ l : List α, (sortByOrder key l).Pairwise (fun a b => key a ≤ key b) := by
  intro l
  induction l with
  | nil => exact List.Pairwise.nil
  | cons x xs ih => exact insertByOrder_pairwise key x (sortByOrder key xs) ih

/-- Claim C7 (confirmed).  For each of the textures, scenes and themes
datasets: a failed remote fetch (network error or non-ok HTTP status)
yields the bundled dataset — the loader returns exactly the
ascending-by-`order` sort of the bundled records, a permutation of them —
and in every case, remote or bundled, the returned list is sorted ascending
by the `order` field. -/
theorem C7_loaders_fallback_sorted :
    (∀ bundled : JsonData TextureOption,
      loadTextures none .networkError bundled
          = sortByOrder (fun t => t.order) (normalizeTextures bundled) ∧
      loadTextures none .httpNotOk bundled
          = sortByOrder (fun t => t.order) (normalizeTextures bundled) ∧
      (sortByOrder (fun t => t.order) (normalizeTextures bundled)).Perm
        (normalizeTextures bundled)) ∧
    (∀ (outcome : FetchOutcome TextureOption) (bundled : JsonData TextureOption),
      (loadTextures none outcome bundled).Pairwise (fun a b => a.order ≤ b.order)) ∧
    (∀ bundled : JsonData Scene,
      loadScenes none .networkError bundled
          = sortByOrder (fun s => s.order) (normalizeScenes bundled) ∧
      loadScenes none .httpNotOk bundled
          = sortByOrder (fun s => s.order) (normalizeScenes bundled) ∧
      (sortByOrder (fun s => s.order) (normalizeScenes bundled)).Perm
        (normalizeScenes bundled)) ∧
    (∀ (outcome : FetchOutcome Scene) (bundled : JsonData Scene),
      (loadScenes none outcome bundled).Pairwise (fun a b => a.order ≤ b.order)) ∧
    (∀ bundled : JsonData Theme,
      loadThemes none .networkError bundled
          = sortByOrder (fun t => t.order) (normalizeThemes bundled) ∧
      loadThemes none .httpNotOk bundled
          = sortByOrder (fun t => t.order) (normalizeThemes bundled) ∧
      (sortByOrder (fun t => t.order) (normalizeThemes bundled)).Perm
        (normalizeThemes bundled)) ∧
    (∀ (outcome : FetchOutcome Theme) (bundled : JsonData Theme),
      (loadThemes none outcome bundled).Pairwise (fun a b => a.order ≤ b.order)) := by
  refine ⟨?_, ?_, ?_, ?_, ?_, ?_⟩
  · intro bundled
    exact ⟨rfl, rfl, sortByOrder_perm _ _⟩
  · intro outcome bundled
    exact sortByOrder_pairwise (fun t : TextureOption => t.order) _
  · intro bundled
    exact ⟨rfl, rfl, sortByOrder_perm _ _⟩
  · intro outcome bundled
    exact sortByOrder_pairwise (fun s : Scene => s.order) _
  · intro bundled
    exact ⟨rfl, rfl, sortByOrder_perm _ _⟩
  · intro outcome bundled
    exact sortByOrder_pairwise (fun t : Theme => t.order) _

/-! ## Claim C8: the viewport expansion on scene load -/

theorem digitDot_not_space (c : Char) (h : isDigitDotChar c = true) : isSpaceChar c = false := by
  by_contra h2
  have h3 : isSpaceChar c = true := by
    cases h4 : isSpaceChar c
    · exact absurd h4 h2
    · rfl
  simp only [isSpaceChar, decide_eq_true_eq] at h3
  rcases h3 with rfl | rfl | rfl | rfl <;> cases h

theorem takeWhile_all_eq (p : Char → Bool) :
    ∀ l : List Char, (∀ x ∈ l, p x = true) →
      l.takeWhile p = l ∧ l.dropWhile p = [] := by
  intro l
  induction l with
  | nil => intro _; exact ⟨rfl, rfl⟩
  | cons c cs ih =>
    intro h
    have hc : p c = true := h c (List.mem_cons_self c cs)
    have hcs := ih (fun x hx => h x (List.mem_cons_of_mem c hx))
    rw [List.takeWhile_cons, List.dropWhile_cons, if_pos hc, if_pos hc]
    exact ⟨by rw [hcs.1], hcs.2⟩

theorem takeWhile_append_stop (p : Char → Bool) :
    ∀ (l1 : List Char) (c : Char) (l2 : List Char),
      (∀ x ∈ l1, p x = true) → p c = false →
      ((l1 ++ c :: l2).takeWhile p = l1 ∧ (l1 ++ c :: l2).dropWhile p = c :: l2) := by
  intro l1
  induction l1 with
  | nil =>
    intro c l2 _ hc
    rw [List.nil_append, List.takeWhile_cons, List.dropWhile_cons, if_neg (by rw [hc]; decide),
      if_neg (by rw [hc]; decide)]
    exact ⟨rfl, rfl⟩
  | cons d ds ih =>
    intro c l2 h hc
    have hd : p d = true := h d (List.mem_cons_self d ds)
    have hrest := ih c l2 (fun x hx => h x (List.mem_cons_of_mem d hx)) hc
    rw [List.cons_append, List.takeWhile_cons, List.dropWhile_cons, if_pos hd, if_pos hd]
    exact ⟨by rw [hrest.1], hrest.2⟩

theorem viewBoxMatchHere_derived (ws hs : List Char)
    (hw1 : ws ≠ []) (hw2 : ∀ x ∈ ws, isDigitDotChar x = true)
    (hh1 : hs ≠ []) (hh2 : ∀ x ∈ hs, isDigitDotChar x = true) :
    viewBoxMatchHere ('0' :: ' ' :: '0' :: ' ' :: (ws ++ ' ' :: hs))
      = some ("0", "0", ⟨ws⟩, ⟨hs⟩) := by
  obtain ⟨wc, wrest, rfl⟩ := List.exists_cons_of_ne_nil hw1
  obtain ⟨hc, hrest, rfl⟩ := List.exists_cons_of_ne_nil hh1
  have hwcd : isDigitDotChar wc = true := hw2 wc (List.mem_cons_self wc wrest)
  have hwcs : isSpaceChar wc = false := digitDot_not_space wc hwcd
  have hhcd : isDigitDotChar hc = true := hh2 hc (List.mem_cons_self hc hrest)
  have hhcs : isSpaceChar hc = false := digitDot_not_space hc hhcd
  have htw := takeWhile_append_stop isDigitDotChar (wc :: wrest) ' ' (hc :: hrest) hw2 (by decide)
  have hhw := takeWhile_all_eq isDigitDotChar (hc :: hrest) hh2
  have e7 : (' ' :: wc :: (wrest ++ ' ' :: hc :: hrest)).takeWhile isSpaceChar = [' '] := by
    rw [List.takeWhile_cons, if_pos (by decide), List.takeWhile_cons,
      if_neg (by rw [hwcs]; decide)]
  have e8 : (' ' :: wc :: (wrest ++ ' ' :: hc :: hrest)).dropWhile isSpaceChar
      = wc :: (wrest ++ ' ' :: hc :: hrest) := by
    rw [List.dropWhile_cons, if_pos (by decide), List.dropWhile_cons,
      if_neg (by rw [hwcs]; decide)]
  have e9 : (wc :: (wrest ++ ' ' :: hc :: hrest)).takeWhile isDigitDotChar = wc :: wrest := by
    rw [← List.cons_append]; exact htw.1
  have e10 : (wc :: (wrest ++ ' ' :: hc :: hrest)).dropWhile isDigitDotChar
      = ' ' :: hc :: hrest := by
    rw [← List.cons_append]; exact htw.2
  have e11 : (' ' :: hc :: hrest).takeWhile isSpaceChar = [' '] := by
    rw [List.takeWhile_cons, if_pos (by decide), List.takeWhile_cons,
      if_neg (by rw [hhcs]; decide)]
  have e12 : (' ' :: hc :: hrest).dropWhile isSpaceChar = hc :: hrest := by
    rw [List.dropWhile_cons, if_pos (by decide), List.dropWhile_cons,
      if_neg (by rw [hhcs]; decide)]
  show viewBoxMatchHere
      ('0' :: ' ' :: '0' :: ' ' :: wc :: (wrest ++ ' ' :: hc :: hrest)) = _
  simp only [viewBoxMatchHere]
  have e2 : ('0' :: ' ' :: '0' :: ' ' :: wc :: (wrest ++ ' ' :: hc :: hrest)).dropWhile
      isDigitDotChar = ' ' :: '0' :: ' ' :: wc :: (wrest ++ ' ' :: hc :: hrest) := rfl
  have e4 : (' ' :: '0' :: ' ' :: wc :: (wrest ++ ' ' :: hc :: hrest)).dropWhile isSpaceChar
      = '0' :: ' ' :: wc :: (wrest ++ ' ' :: hc :: hrest) := rfl
  have e6 : ('0' :: ' ' :: wc :: (wrest ++ ' ' :: hc :: hrest)).dropWhile isDigitDotChar
      = ' ' :: wc :: (wrest ++ ' ' :: hc :: hrest) := rfl
  rw [e2, e4, e6, e8, e10, e12, e9, e11, hhw.1]
  rfl

theorem computeViewBox_attr (s : String) (w h : Option String) (hs : s ≠ "") :
    computeViewBox (some s) w h = (match viewBoxSearch s.data with
      | some (t1, t2, t3, t4) =>
        match jsNumberDec t1, jsNumberDec t2, jsNumberDec t3, jsNumberDec t4 with
        | some x, some y, some w2, some h2 =>
          .expanded (x - w2 * 0.15) (y - h2 * 0.15) (w2 + w2 * 0.15 * 2) (h2 + h2 * 0.15 * 2)
        | _, _, _, _ => .nanBox
      | none => .passthrough s) := by
  simp only [computeViewBox, Option.getD_some, decide_eq_true hs, if_true]

theorem computeViewBox_derived (vb : Option String) (ws hs : String)
    (hvb : vb.getD "" = "") (hws : ws ≠ "") (hhs : hs ≠ "") :
    computeViewBox vb (some ws) (some hs) =
      (match viewBoxSearch ("0 0 " ++ ws ++ " " ++ hs).data with
      | some (t1, t2, t3, t4) =>
        match jsNumberDec t1, jsNumberDec t2, jsNumberDec t3, jsNumberDec t4 with
        | some x, some y, some w2, some h2 =>
          .expanded (x - w2 * 0.15) (y - h2 * 0.15) (w2 + w2 * 0.15 * 2) (h2 + h2 * 0.15 * 2)
        | _, _, _, _ => .nanBox
      | none => .passthrough ("0 0 " ++ ws ++ " " ++ hs)) := by
  simp only [computeViewBox, Option.getD_some, hvb, decide_eq_true hws, decide_eq_true hhs,
    and_self, if_true]
  simp

theorem computeViewBox_fallback (vb w h : Option String) (hvb : vb.getD "" = "")
    (hwh : w.getD "" = "" ∨ h.getD "" = "") :
    computeViewBox vb w h =
      (match viewBoxSearch ("0 0 1359 877" : String).data with
      | some (t1, t2, t3, t4) =>
        match jsNumberDec t1, jsNumberDec t2, jsNumberDec t3, jsNumberDec t4 with
        | some x, some y, some w2, some h2 =>
          .expanded (x - w2 * 0.15) (y - h2 * 0.15) (w2 + w2 * 0.15 * 2) (h2 + h2 * 0.15 * 2)
        | _, _, _, _ => .nanBox
      | none => .passthrough "0 0 1359 877") := by
  have hcond : ¬ ((w.getD "" ≠ "" : Bool) = true ∧ (h.getD "" ≠ "" : Bool) = true) := by
    rintro ⟨hw, hh⟩
    rcases hwh with hx | hx <;> simp [hx] at hw hh
  simp only [computeViewBox, hvb, decide_eq_true, if_neg hcond]
  simp

theorem jsNumberDec_eval (s : String) (ds : List Char) (n : Nat)
    (hsp : s.data.splitOn '.' = [ds])
    (hds : ds ≠ [])
    (hall : ds.all isDigitChar = true)
    (hfold : ds.foldl (fun acc c => 10 * acc + (c.toNat - '0'.toNat)) 0 = n) :
    jsNumberDec s = some (n : ℚ) := by
  simp only [jsNumberDec, hsp]
  rw [if_pos ⟨hds, by simpa [List.all_eq_true] using hall⟩, hfold]

/-- Claim C8, counterexample.  The claim asserts the displayed viewport is
the artwork viewbox expanded by 15% on each side; for the viewbox
`-100 0 200 200` the extraction regex `([\d.]+)` skips the minus sign and
parses `100 0 200 200`, so the installed viewport is the expansion of the
wrong box — `70 -30 260 260` where the claimed formula gives an x origin of
`-100 - 0.15 * 200 = -130`. -/
theorem C8_counterexample :
    computeViewBox (some "-100 0 200 200") none none
      = ViewBoxOutcome.expanded 70 (-30) 260 260 ∧
    (-100 : ℚ) - 0.15 * 200 = -130 ∧
    (70 : ℚ) ≠ -130 := by
  refine ⟨?_, by norm_num, by norm_num⟩
  rw [computeViewBox_attr "-100 0 200 200" none none (by decide)]
  have hsearch : viewBoxSearch ("-100 0 200 200" : String).data
      = some ("100", "0", "200", "200") := by decide
  have h100 : jsNumberDec "100" = some ((100 : Nat) : ℚ) :=
    jsNumberDec_eval "100" ['1', '0', '0'] 100 (by decide) (by decide) (by decide) (by decide)
  have h0 : jsNumberDec "0" = some ((0 : Nat) : ℚ) :=
    jsNumberDec_eval "0" ['0'] 0 (by decide) (by decide) (by decide) (by decide)
  have h200 : jsNumberDec "200" = some ((200 : Nat) : ℚ) :=
    jsNumberDec_eval "200" ['2', '0', '0'] 200 (by decide) (by decide) (by decide) (by decide)
  simp only [hsearch, h100, h0, h200]
  congr 1 <;> push_cast <;> norm_num

/-- Claim C8, amended.  For artwork viewboxes made of four nonnegative
decimal numbers the displayed viewport is the viewbox expanded by 15% of
its width and height on each side — `(x − 0.15w, y − 0.15h, 1.3w, 1.3h)` —
taken from the explicit viewBox attribute, or derived as `(0, 0, width,
height)` from nonnegative decimal width/height attributes, or from the
hardcoded fallback `0 0 1359 877` when neither is present; viewboxes with
negative coordinates are mis-parsed by the extraction regex (the sign is
dropped), so the claimed formula does not cover them. -/
theorem C8_viewport_expansion :
    (∀ (s : String) (wAttr hAttr : Option String) (t1 t2 t3 t4 : String) (x y w h : ℚ),
      s ≠ "" →
      viewBoxSearch s.data = some (t1, t2, t3, t4) →
      jsNumberDec t1 = some x → jsNumberDec t2 = some y →
      jsNumberDec t3 = some w → jsNumberDec t4 = some h →
      computeViewBox (some s) wAttr hAttr
        = .expanded (x - 0.15 * w) (y - 0.15 * h) (1.3 * w) (1.3 * h)) ∧
    (∀ (vbAttr : Option String) (ws hs : String) (w h : ℚ),
      vbAttr.getD "" = "" →
      ws.data ≠ [] → (∀ x ∈ ws.data, isDigitDotChar x = true) → jsNumberDec ws = some w →
      hs.data ≠ [] → (∀ x ∈ hs.data, isDigitDotChar x = true) → jsNumberDec hs = some h →
      computeViewBox vbAttr (some ws) (some hs)
        = .expanded (0 - 0.15 * w) (0 - 0.15 * h) (1.3 * w) (1.3 * h)) ∧
    (∀ vbAttr wAttr hAttr : Option String,
      vbAttr.getD "" = "" → (wAttr.getD "" = "" ∨ hAttr.getD "" = "") →
      computeViewBox vbAttr wAttr hAttr
        = .expanded (-203.85) (-131.55) 1766.7 1140.1) := by
  refine ⟨?_, ?_, ?_⟩
  · intro s wAttr hAttr t1 t2 t3 t4 x y w h hs hsearch h1 h2 h3 h4
    rw [computeViewBox_attr s wAttr hAttr hs]
    simp only [hsearch, h1, h2, h3, h4]
    congr 1 <;> ring
  · intro vbAttr ws hs w h hvb hw1 hw2 hnw hh1 hh2 hnh
    have hws : ws ≠ "" := fun hcon => hw1 (by rw [hcon])
    have hhs : hs ≠ "" := fun hcon => hh1 (by rw [hcon])
    rw [computeViewBox_derived vbAttr ws hs hvb hws hhs]
    have hdata : ("0 0 " ++ ws ++ " " ++ hs).data
        = '0' :: ' ' :: '0' :: ' ' :: (ws.data ++ ' ' :: hs.data) := by
      rw [String.data_append, String.data_append, String.data_append]
      show ['0', ' ', '0', ' '] ++ ws.data ++ [' '] ++ hs.data = _
      simp [List.append_assoc]
    have hsearch : viewBoxSearch ("0 0 " ++ ws ++ " " ++ hs).data
        = some ("0", "0", ws, hs) := by
      rw [hdata]
      show (match viewBoxMatchHere ('0' :: ' ' :: '0' :: ' ' :: (ws.data ++ ' ' :: hs.data)) with
        | some r => some r
        | none => viewBoxSearch (' ' :: '0' :: ' ' :: (ws.data ++ ' ' :: hs.data))) = _
      rw [viewBoxMatchHere_derived ws.data hs.data hw1 hw2 hh1 hh2]
    have h0 : jsNumberDec "0" = some ((0 : Nat) : ℚ) :=
      jsNumberDec_eval "0" ['0'] 0 (by decide) (by decide) (by decide) (by decide)
    simp only [hsearch, h0, hnw, hnh]
    congr 1 <;> push_cast <;> ring
  · intro vbAttr wAttr hAttr hvb hwh
    rw [computeViewBox_fallback vbAttr wAttr hAttr hvb hwh]
    have hsearch : viewBoxSearch ("0 0 1359 877" : String).data
        = some ("0", "0", "1359", "877") := by decide
    have h0 : jsNumberDec "0" = some ((0 : Nat) : ℚ) :=
      jsNumberDec_eval "0" ['0'] 0 (by decide) (by decide) (by decide) (by decide)
    have h1359 : jsNumberDec "1359" = some ((1359 : Nat) : ℚ) :=
      jsNumberDec_eval "1359" ['1', '3', '5', '9'] 1359 (by decide) (by decide) (by decide)
        (by decide)
    have h877 : jsNumberDec "877" = some ((877 : Nat) : ℚ) :=
      jsNumberDec_eval "877" ['8', '7', '7'] 877 (by decide) (by decide) (by decide) (by decide)
    simp only [hsearch, h0, h1359, h877]
    congr 1 <;> push_cast <;> norm_num

/-- Claim C8, witness: the viewbox `0 0 100 50` is expanded to
`(-15, -7.5, 130, 65)`. -/
theorem C8_witness :
    computeViewBox (some "0 0 100 50") none none
      = ViewBoxOutcome.expanded (-15) (-7.5) 130 65 := by
  have h := C8_viewport_expansion.1 "0 0 100 50" none none "0" "0" "100" "50"
    ((0 : Nat) : ℚ) ((0 : Nat) : ℚ) ((100 : Nat) : ℚ) ((50 : Nat) : ℚ)
    (by decide) (by decide)
    (jsNumberDec_eval "0" ['0'] 0 (by decide) (by decide) (by decide) (by decide))
    (jsNumberDec_eval "0" ['0'] 0 (by decide) (by decide) (by decide) (by decide))
    (jsNumberDec_eval "100" ['1', '0', '0'] 100 (by decide) (by decide) (by decide) (by decide))
    (jsNumberDec_eval "50" ['5', '0'] 50 (by decide) (by decide) (by decide) (by decide))
  rw [h]
  congr 1 <;> push_cast <;> norm_num

/-- Claim C10, witness at the catalog color `#8d8975`. -/
theorem C10_witness :
    adjustColorBrightness (toHexColor 141 137 117) (-15)
      = toHexColor (groutChan (luminanceGtHalf 141 137 117) 141)
          (groutChan (luminanceGtHalf 141 137 117) 137)
          (groutChan (luminanceGtHalf 141 137 117) 117) ∧
    groutChan (luminanceGtHalf 141 137 117) 141 ≤ 141 ∧
    groutChan (luminanceGtHalf 141 137 117) 137 ≤ 137 ∧
    groutChan (luminanceGtHalf 141 137 117) 117 ≤ 117 := by
  have h := C10_channels_never_brighter 141 137 117 (by decide) (by decide) (by decide)
  exact ⟨h.1, h.2.1, h.2.2.1, h.2.2.2.1⟩

end KitchenPreview
